import Mathlib

/-!
# Verification of the `openapi` repository against its specification

This file gives a shallow embedding, in Lean 4, of the parts of the
`openapi` Rust crate (OpenAPI 3.1 document model, serde codec behaviour,
and the documentation-header generator) that the specification's claims
talk about, and settles each claim against it.

Source layout referenced throughout:
 * `src/lib.rs` — the document model (`Spec`, `Info`, `Contact`, `License`,
   `ExternalDocument`, `Reference<T>`, `Schema`, `Type`, `Format`, …) with
   serde `derive` attributes that determine the wire codec;
 * `src/parse.rs` — `read_from_file` / `_read_from_file` extension dispatch;
 * `src/code/mod.rs` — `Generator::write_to` and
   `Generator::write_module_docs` (the doc-header synthesizer);
 * `src/code/rust.rs` — the `Rust` backend's `module_docs`.

Modelling conventions:
 * Rust `Option<T>` is `Option`, `Vec<T>` is `List`, `HashMap<K, V>` is an
   association list `List (K × V)` (Rust hash maps are unordered and keep
   one entry per key; the association lists used here carry the same
   key-value association whenever keys are unique, which holds for every
   input appearing in a claim).
 * The serde data model is embedded by the `Value` type below
   (serde_json::Value).  Numeric payloads (`f64` / `usize` fields, none of
   which any claim inspects beyond round-tripping) are carried as `Int` /
   `Nat`; the JSON number codec is injective on these carriers.
 * The behaviour of the `#[derive(Serialize, Deserialize)]` codecs is
   translated field by field from the struct declarations and their serde
   attributes, following serde's documented semantics: fields are
   serialized in declaration order under their `rename_all = "camelCase"`
   names, an `Option` field serializes `None` as `null` and treats a
   missing key as `None`, `#[serde(default)]` fields fall back to the
   default when the key is missing, a duplicated known key is a decode
   error, unknown keys are ignored (no `deny_unknown_fields` anywhere) or,
   in the presence of a `#[serde(flatten)]` map field, collected into it,
   and a flattened `Option<T>` decodes as `None` exactly when no
   unconsumed key remains, otherwise as `Some` of `T`'s decode of the
   remaining keys.
-/

namespace Openapi

/-- Out-of-line `Option.getD` (reading a defaulted field slot).  Kept
un-inlined: inlining 56 of these into the 57-argument `Schema.mk`
application makes the Lean code generator blow up. -/
@[noinline] def slotD {α : Type} (o : Option α) (d : α) : α :=
  match o with
  | some x => x
  | none => d

/-! ## JSON-like values (the serde data model, `Any = serde_json::Value`) -/

/-- `serde_json::Value` (aliased `Any` in `src/lib.rs`): the tree both
codecs (JSON and YAML) decode into.  Numbers are carried as `Int`; no
claim depends on non-integral numeric payloads. -/
inductive Value where
  | null : Value
  | bool (b : Bool) : Value
  | num (n : Int) : Value
  | str (s : String) : Value
  | arr (elems : List Value) : Value
  | obj (fields : List (String × Value)) : Value

/-! ## The document model consumed by the generator (`src/lib.rs`)

Only the root fields that `Generator::write_to` / `write_module_docs`
read are embedded here (`info`, `json_schema_dialect`, `webhooks`,
`security`, `external_docs`); the remaining root fields (`openapi`,
`servers`, `paths`, `components`, `tags`) are never read by the generator
and occur in no claim about it.  Of `webhooks` only emptiness of the map
is consumed, so it is embedded as its list of keys. -/

/-- `Contact` (src/lib.rs): contact information, all fields optional. -/
structure Contact where
  name : Option String
  url : Option String
  email : Option String

/-- `License` (src/lib.rs): `name` required, the rest optional. -/
structure License where
  name : String
  identifier : Option String
  url : Option String

/-- `Info` (src/lib.rs): API metadata consumed by `write_module_docs`. -/
structure Info where
  title : String
  summary : Option String
  description : Option String
  terms_of_service : Option String
  contact : Option Contact
  license : Option License
  version : String

/-- `ExternalDocument` (src/lib.rs): optional description plus required url. -/
structure ExternalDocument where
  description : Option String
  url : String

/-- The root `Spec` object (src/lib.rs), restricted to the fields the
generator reads (see the section comment above). -/
structure Spec where
  info : Info
  json_schema_dialect : Option String
  webhooks : List String
  security : List (List (String × List String))
  external_docs : Option ExternalDocument

/-! ## The doc-header synthesizer (`Generator::write_module_docs`, src/code/mod.rs:80-154)

The Rust function builds one `String` by a straight-line sequence of
appends; `moduleDocs` mirrors that sequence with a chain of `let`
rebindings, one per `push_str`/`push` block. -/

/-- Rust `str::ends_with('.')`, as used on the description texts: true iff
the last character is `'.'`.  (Defined over `String.data` so that closed
instances evaluate inside the kernel.) -/
def endsWithDot (s : String) : Bool :=
  s.data.getLast? == some '.'

/-- Rust `str::strip_suffix('.')` in its `unwrap_or(desc)` use: drop one
trailing `'.'` when present, else keep the string. -/
def stripDotSuffix (s : String) : String :=
  if endsWithDot s then String.mk s.data.dropLast else s

/-- The `if let Some(desc) = info.description.as_deref().or(info.summary…)`
block (src/code/mod.rs lines 88-94): what it appends to the buffer. -/
def descriptionBlock (info : Info) : String :=
  match info.description.or info.summary with
  | some desc => "\n\n" ++ desc ++ (if endsWithDot desc then "" else ".")
  | none => ""

/-- The `if let Some(external_docs) = spec.external_docs` block
(src/code/mod.rs lines 96-105): what it appends to the buffer
(`write!(docs, "{}: <{}>.", desc, external_docs.url)`). -/
def externalDocsBlock : Option ExternalDocument → String
  | some external_docs =>
      let desc :=
        match external_docs.description with
        -- `desc.strip_suffix('.').unwrap_or(desc)`
        | some d => stripDotSuffix d
        | none => "More documentation at"
      "\n\n" ++ desc ++ ": <" ++ external_docs.url ++ ">."
  | none => ""

/-- The `if let Some(contact) = info.contact` block (src/code/mod.rs lines
110-130): what it appends to the buffer.  Note that the source has *two*
`if let Some(email) = contact.email.as_ref()` blocks; the second
(lines 125-129) appends the email once more. -/
def contactBlock : Option Contact → String
  | some contact =>
      let docs :=
        match contact.name with
        | some name => "\nContact: " ++ name
        | none => ""
      let docs :=
        match contact.email with
        | some email =>
            let has_name := contact.name.isSome
            docs ++ (if has_name then " <" else "\n") ++ email
              ++ (if has_name then ">" else "")
        | none => docs
      let docs :=
        match contact.email with
        | some email =>
            let a := contact.name.isSome || contact.email.isSome
            docs ++ (if a then ", " else "\n") ++ email
        | none => docs
      docs
  | none => ""

/-- The `if let Some(license) = info.license` block (src/code/mod.rs lines
132-146): what it appends to the buffer. -/
def licenseBlock : Option License → String
  | some license =>
      let docs := "\nLicense: " ++ license.name
      let docs :=
        match license.identifier with
        | some identifier => docs ++ " (" ++ identifier ++ ")"
        | none => docs
      match license.url with
      | some url => docs ++ " " ++ url
      | none => docs
  | none => ""

/-- The `if let Some(tos) = info.terms_of_service` block (src/code/mod.rs
lines 148-151): what it appends to the buffer. -/
def tosBlock : Option String → String
  | some tos => "\nTerms of Service: " ++ tos
  | none => ""

/-- `Generator::write_module_docs` (src/code/mod.rs lines 84-151): the
synthesized documentation text, before the language backend wraps it.
The Rust function appends to a single `String` buffer in a straight-line
sequence of blocks, each of whose contribution is independent of the
buffer contents, so the buffer is the concatenation of the per-block
suffixes above, in source order. -/
def moduleDocs (spec : Spec) : String :=
  spec.info.title
    ++ descriptionBlock spec.info
    ++ externalDocsBlock spec.external_docs
    ++ "\n\nVersion: " ++ spec.info.version
    ++ contactBlock spec.info.contact
    ++ licenseBlock spec.info.license
    ++ tosBlock spec.info.terms_of_service

/-- Warning messages pushed by `Generator::write_to`
(src/code/mod.rs lines 40-58), in push order: `jsonSchemaDialect` when
set, then `webhooks` when non-empty, then `security` when non-empty. -/
def writeToWarnings (spec : Spec) : List String :=
  (if spec.json_schema_dialect.isSome
    then ["$root.jsonSchemaDialect not supported"] else [])
  ++ (if spec.webhooks.isEmpty then [] else ["$root.webhooks not supported"])
  ++ (if spec.security.isEmpty then [] else ["$root.security not supported"])

/-- Splitting a character list at every `'\n'` (helper for `rustLines`). -/
def splitNewlines : List Char → List (List Char)
  | [] => [[]]
  | c :: cs =>
      let rest := splitNewlines cs
      if c = '\n' then [] :: rest
      else
        match rest with
        | l :: ls => (c :: l) :: ls
        | [] => [[c]]

/-- Rust's `str::lines` (used by `Rust::module_docs`): split on `'\n'`,
with a final line-terminator not producing a trailing empty line, and a
trailing `'\r'` stripped from each line. -/
def rustLines (s : String) : List String :=
  let parts := splitNewlines s.data
  let parts := match parts.getLast? with
    | some [] => parts.dropLast
    | _ => parts
  parts.map (fun l =>
    String.mk (if l.getLast? == some '\r' then l.dropLast else l))

/-- `Rust::module_docs` (src/code/rust.rs): every line of the synthesized
docs is emitted as `"//! " ++ line ++ "\n"`. -/
def rustModuleDocs (docs : String) : String :=
  String.join ((rustLines docs).map (fun l => "//! " ++ l ++ "\n"))

/-- `Generator::<Rust>::write_to` (src/code/mod.rs lines 35-64): writes the
module docs to the output and appends its warnings to the caller-supplied
`warnings` vector (a `&mut Vec<String>`, modelled by explicitly passing
the previous contents). -/
def writeTo (spec : Spec) (warnings : List String) : String × List String :=
  (rustModuleDocs (moduleDocs spec), warnings ++ writeToWarnings spec)

/-! ## File-format dispatch (`_read_from_file`, src/parse.rs lines 18-29)

`_read_from_file` inspects `path.extension().and_then(|e| e.to_str())`
(an `Option<&str>`, `None` for a missing or non-UTF-8 extension) and
dispatches to the JSON or YAML reader, or fails, *before* any file is
opened (`File::open` happens inside the per-format readers).  The model
therefore takes the extension and an oracle `run` standing for the
selected per-format reader (open + read + parse); both the `json` and
`yaml` cargo features are taken as enabled, as in the reference tool. -/

/-- `std::io::ErrorKind` values used by `src/parse.rs`. -/
inductive ErrorKind where
  | invalidInput : ErrorKind
  | invalidData : ErrorKind
deriving DecidableEq

/-- The two supported codecs of `_read_from_file`. -/
inductive FileFormat where
  | json : FileFormat
  | yaml : FileFormat

/-- `_read_from_file` (src/parse.rs lines 18-29), with the per-format
readers abstracted as `run`.  `α` stands for `Spec` (the parsed result is
not inspected by this function). -/
def readFromFile (α : Type) (ext : Option String)
    (run : FileFormat → Except (ErrorKind × String) α) :
    Except (ErrorKind × String) α :=
  match ext with
  | some "json" => run .json
  | some "yaml" => run .yaml
  | _ => .error (.invalidInput, "unsupported file format")

/-! ## Serde value-level primitives

The derived codecs below follow serde's semantics for the field types
appearing in `src/lib.rs` (see the conventions at the top of the file).
Each `enc…`/`dec…` pair is the wire form of one Rust field type. -/

/-- Serialization of an `Option<String>` field: `None` is `null`. -/
def encOptStr : Option String → Value
  | none => .null
  | some s => .str s

/-- Deserialization of an `Option<String>` field value: `null` is `None`,
a string is `Some`, anything else is a type error. -/
def decOptStr : Value → Except String (Option String)
  | .null => .ok none
  | .str s => .ok (some s)
  | _ => .error "invalid type: expected a string or null"

/-- Deserialization of a `String` field value. -/
def decStr : Value → Except String String
  | .str s => .ok s
  | _ => .error "invalid type: expected a string"

/-- Serialization of an `Option<Any>` field (`Any = serde_json::Value`):
`None` is `null`, `Some v` is `v` itself. -/
def encOptAny : Option Value → Value
  | none => .null
  | some v => v

/-- Deserialization of an `Option<Any>` field value: the `Option`
deserializer maps `null` to `None` before the inner type sees the value,
so `Some Value::Null` can never be produced. -/
def decOptAny : Value → Except String (Option Value)
  | .null => .ok none
  | v => .ok (some v)

/-- Entry-wise deserialization of map entries, given the value
deserializer (serde's `MapAccess` loop, entries in encounter order). -/
def decPairs {α : Type} (dec : Value → Except String α) :
    List (String × Value) → Except String (List (String × α))
  | [] => .ok []
  | (k, v) :: rest =>
      match dec v with
      | .error e => .error e
      | .ok a =>
          match decPairs dec rest with
          | .error e => .error e
          | .ok l => .ok ((k, a) :: l)

/-- Element-wise deserialization of sequence elements (serde's
`SeqAccess` loop). -/
def decList {α : Type} (dec : Value → Except String α) :
    List Value → Except String (List α)
  | [] => .ok []
  | v :: rest =>
      match dec v with
      | .error e => .error e
      | .ok a =>
          match decList dec rest with
          | .error e => .error e
          | .ok l => .ok (a :: l)

/-- Deserialization of a `HashMap<String, V>` field value, given the
value deserializer (serde's `HashMap` visitor accepts any map). -/
def decMap (α : Type) (dec : Value → Except String α) :
    Value → Except String (List (String × α))
  | .obj kvs => decPairs dec kvs
  | _ => .error "invalid type: expected a map"

/-! ## `Reference<T>` and its codec (src/lib.rs lines 1108-1130)

`Reference<T>` is a struct (not a two-variant enum): an optional `$ref`
string, optional `summary`/`description`, and a `#[serde(flatten)]`
`object: Option<T>`.  Its derived `Deserialize` visits the map entries in
order, filling the three named fields (a repeated name is a "duplicate
field" error) and buffering every other entry; the flattened `Option<T>`
then decodes to `None` exactly when the buffer is empty, otherwise to
`Some` of `T`'s decode of the buffered entries (serde's documented
behaviour for a flattened `Option`).  Its derived `Serialize` writes the
three named fields in declaration order (`None` as `null`) and then the
flattened object's fields at the same level — with no wrapper key and no
de-duplication against the named fields. -/

/-- `Reference<T>` (src/lib.rs lines 1108-1130). -/
structure Reference (T : Type) where
  ref : Option String
  summary : Option String
  description : Option String
  object : Option T

/-- Accumulator of the map visitor for `Reference<T>`'s derived
`Deserialize`: one slot per named field (`none` = not seen yet) plus the
buffer of unmatched entries feeding the flattened field. -/
structure RefAcc where
  ref : Option (Option String)
  summary : Option (Option String)
  description : Option (Option String)
  buffer : List (String × Value)

/-- One step of `Reference<T>`'s visitor loop. -/
def refStep (acc : RefAcc) (k : String) (v : Value) : Except String RefAcc :=
  if k = "$ref" then
    match acc.ref with
    | some _ => .error "duplicate field $ref"
    | none => (fun r => { acc with ref := some r }) <$> decOptStr v
  else if k = "summary" then
    match acc.summary with
    | some _ => .error "duplicate field summary"
    | none => (fun r => { acc with summary := some r }) <$> decOptStr v
  else if k = "description" then
    match acc.description with
    | some _ => .error "duplicate field description"
    | none => (fun r => { acc with description := some r }) <$> decOptStr v
  else
    .ok { acc with buffer := acc.buffer ++ [(k, v)] }

/-- The visitor loop of `Reference<T>`'s derived `Deserialize`. -/
def refLoop : RefAcc → List (String × Value) → Except String RefAcc
  | acc, [] => .ok acc
  | acc, (k, v) :: rest =>
      match refStep acc k v with
      | .error e => .error e
      | .ok acc' => refLoop acc' rest

/-- The derived `Deserialize` of `Reference<T>`, with `T`'s decoding of a
field set abstracted as `decT`.  Missing named fields default to `None`
(serde's implicit `Option` handling). -/
def decodeReference {T : Type} (decT : List (String × Value) → Except String T)
    (v : Value) : Except String (Reference T) :=
  match v with
  | .obj kvs =>
      match refLoop ⟨none, none, none, []⟩ kvs with
      | .error e => .error e
      | .ok acc =>
          if acc.buffer.isEmpty then
            .ok ⟨acc.ref.getD none, acc.summary.getD none,
              acc.description.getD none, none⟩
          else
            match decT acc.buffer with
            | .error e => .error e
            | .ok t =>
                .ok ⟨acc.ref.getD none, acc.summary.getD none,
                  acc.description.getD none, some t⟩
  | _ => .error "invalid type: expected a map"

/-- The derived `Serialize` of `Reference<T>`, with `T`'s field
serialization abstracted as `encT`. -/
def encodeReference {T : Type} (encT : T → List (String × Value))
    (r : Reference T) : Value :=
  .obj ([("$ref", encOptStr r.ref), ("summary", encOptStr r.summary),
      ("description", encOptStr r.description)]
    ++ (match r.object with
        | some t => encT t
        | none => []))

/-- The entries of a raw map that `Reference<T>`'s visitor does not
consume: everything whose key is not one of the three named fields. -/
def refLeftover (kvs : List (String × Value)) : List (String × Value) :=
  kvs.filter (fun e =>
    !(e.1 = "$ref" || e.1 = "summary" || e.1 = "description"))

/-! ## `Example` (src/lib.rs lines 868-890)

A plain serde struct: optional `summary`, `description`, `value`
(`Option<Any>`) and a defaulted `externalValue` string.  Its visitor
ignores unknown keys (no `deny_unknown_fields` anywhere in the crate)
and rejects duplicated known keys. -/

/-- `Example` (src/lib.rs lines 868-890). -/
structure Example where
  summary : Option String
  description : Option String
  value : Option Value
  external_value : String

/-- Visitor accumulator for `Example`. -/
structure ExampleAcc where
  summary : Option (Option String)
  description : Option (Option String)
  value : Option (Option Value)
  external_value : Option String

/-- One step of `Example`'s visitor loop. -/
def exampleStep (acc : ExampleAcc) (k : String) (v : Value) :
    Except String ExampleAcc :=
  if k = "summary" then
    match acc.summary with
    | some _ => .error "duplicate field summary"
    | none => (fun r => { acc with summary := some r }) <$> decOptStr v
  else if k = "description" then
    match acc.description with
    | some _ => .error "duplicate field description"
    | none => (fun r => { acc with description := some r }) <$> decOptStr v
  else if k = "value" then
    match acc.value with
    | some _ => .error "duplicate field value"
    | none => (fun r => { acc with value := some r }) <$> decOptAny v
  else if k = "externalValue" then
    match acc.external_value with
    | some _ => .error "duplicate field externalValue"
    | none => (fun r => { acc with external_value := some r }) <$> decStr v
  else
    .ok acc

/-- The visitor loop of `Example`'s derived `Deserialize`. -/
def exampleLoop : ExampleAcc → List (String × Value) → Except String ExampleAcc
  | acc, [] => .ok acc
  | acc, (k, v) :: rest =>
      match exampleStep acc k v with
      | .error e => .error e
      | .ok acc' => exampleLoop acc' rest

/-- The derived `Deserialize` of `Example` from a field set (as consumed
through `Reference<Example>`'s flattened field): every field is optional
or `#[serde(default)]`. -/
def decodeExample (kvs : List (String × Value)) : Except String Example :=
  match exampleLoop ⟨none, none, none, none⟩ kvs with
  | .error e => .error e
  | .ok acc =>
      .ok ⟨acc.summary.getD none, acc.description.getD none,
        acc.value.getD none, acc.external_value.getD ""⟩

/-- The derived `Serialize` of `Example`: all four fields, declaration
order, wire names per `rename_all = "camelCase"`. -/
def encodeExample (e : Example) : List (String × Value) :=
  [("summary", encOptStr e.summary), ("description", encOptStr e.description),
    ("value", encOptAny e.value), ("externalValue", .str e.external_value)]

/-! ## `Response` (src/lib.rs lines 807-835)

`description: String` is the one field without `#[serde(default)]`, so
it is required at decode time.  The value types of the three maps
(`Reference<Header>`, `MediaType`, `Reference<Link>`) are abstracted as
type parameters with their codecs passed in: no claim inspects them, and
serde composes the outer codec with theirs opaquely, exactly as modelled
here. -/

/-- `Response` (src/lib.rs lines 807-835), with the map value types
`H`/`M`/`L` standing for `Reference<Header>`, `MediaType` and
`Reference<Link>`. -/
structure Response (H M L : Type) where
  description : String
  headers : List (String × H)
  content : List (String × M)
  links : List (String × L)

/-- Visitor accumulator for `Response`. -/
structure ResponseAcc (H M L : Type) where
  description : Option String
  headers : Option (List (String × H))
  content : Option (List (String × M))
  links : Option (List (String × L))

/-- One step of `Response`'s visitor loop. -/
def responseStep {H M L : Type}
    (decH : Value → Except String H) (decM : Value → Except String M)
    (decL : Value → Except String L)
    (acc : ResponseAcc H M L) (k : String) (v : Value) :
    Except String (ResponseAcc H M L) :=
  if k = "description" then
    match acc.description with
    | some _ => .error "duplicate field description"
    | none => (fun r => { acc with description := some r }) <$> decStr v
  else if k = "headers" then
    match acc.headers with
    | some _ => .error "duplicate field headers"
    | none => (fun r => { acc with headers := some r }) <$> decMap H decH v
  else if k = "content" then
    match acc.content with
    | some _ => .error "duplicate field content"
    | none => (fun r => { acc with content := some r }) <$> decMap M decM v
  else if k = "links" then
    match acc.links with
    | some _ => .error "duplicate field links"
    | none => (fun r => { acc with links := some r }) <$> decMap L decL v
  else
    .ok acc

/-- The visitor loop of `Response`'s derived `Deserialize`. -/
def responseLoop {H M L : Type}
    (decH : Value → Except String H) (decM : Value → Except String M)
    (decL : Value → Except String L) :
    ResponseAcc H M L → List (String × Value) →
      Except String (ResponseAcc H M L)
  | acc, [] => .ok acc
  | acc, (k, v) :: rest =>
      match responseStep decH decM decL acc k v with
      | .error e => .error e
      | .ok acc' => responseLoop decH decM decL acc' rest

/-- The derived `Deserialize` of `Response` from a field set:
`description` is required ("missing field" error when absent), the three
maps default to empty. -/
def decodeResponse {H M L : Type}
    (decH : Value → Except String H) (decM : Value → Except String M)
    (decL : Value → Except String L)
    (kvs : List (String × Value)) : Except String (Response H M L) :=
  match responseLoop decH decM decL ⟨none, none, none, none⟩ kvs with
  | .error e => .error e
  | .ok acc =>
      match acc.description with
      | none => .error "missing field description"
      | some d =>
          .ok ⟨d, acc.headers.getD [], acc.content.getD [],
            acc.links.getD []⟩

/-- A decoder for a deliberately unmodelled component type (used to
instantiate `Response`'s map value parameters in closed statements where
those decoders are provably never invoked). -/
def decStuck : Value → Except String Empty :=
  fun _ => .error "unmodelled component"

/-! ## Further serde field primitives used by `Schema` -/

/-- Serialization of an `Option<T>` field from `T`'s serializer: `None`
is `null`. -/
def encOpt {α : Type} (enc : α → Value) : Option α → Value
  | none => .null
  | some a => enc a

/-- Deserialization of an `Option<T>` field value from `T`'s
deserializer, for `T` not itself accepting `null` (every struct, enum,
number and sequence type in `src/lib.rs`): `null` is `None`, anything
else is decoded by `T`. -/
def decOpt {α : Type} (dec : Value → Except String α) :
    Value → Except String (Option α)
  | .null => .ok none
  | v => (fun a => some a) <$> dec v

/-- Deserialization of an `Option<f64>` field value (numbers carried as
`Int`, see the conventions above). -/
def decOptNum : Value → Except String (Option Int)
  | .null => .ok none
  | .num n => .ok (some n)
  | _ => .error "invalid type: expected a number"

/-- Serialization of an `Option<f64>` field. -/
def encOptNum : Option Int → Value
  | none => .null
  | some n => .num n

/-- Deserialization of an `Option<usize>` field value: a negative number
is out of range. -/
def decOptNat : Value → Except String (Option Nat)
  | .null => .ok none
  | .num n =>
      if 0 ≤ n then .ok (some n.toNat)
      else .error "invalid value: out of range for usize"
  | _ => .error "invalid type: expected a number"

/-- Serialization of an `Option<usize>` field. -/
def encOptNat : Option Nat → Value
  | none => .null
  | some n => .num n

/-- Deserialization of a `bool` field value. -/
def decBool : Value → Except String Bool
  | .bool b => .ok b
  | _ => .error "invalid type: expected a boolean"

/-- Deserialization of a `Vec<String>` field value. -/
def decStrList : Value → Except String (List String)
  | .arr items => decList decStr items
  | _ => .error "invalid type: expected a sequence"

/-- Serialization of a `Vec<String>` field. -/
def encStrList (l : List String) : Value :=
  .arr (l.map .str)

/-- Deserialization of a `Vec<Any>` field value (`Any` accepts every
element). -/
def decAnyList : Value → Except String (List Value)
  | .arr items => .ok items
  | _ => .error "invalid type: expected a sequence"

/-- Deserialization of a `HashMap<String, String>` field value. -/
def decStrMap : Value → Except String (List (String × String)) :=
  decMap String decStr

/-- Serialization of a `HashMap<String, String>` field. -/
def encStrMap (m : List (String × String)) : Value :=
  .obj (m.map (fun e => (e.1, .str e.2)))

/-- Deserialization of a `HashMap<String, Vec<String>>` field value
(`dependentRequired`). -/
def decStrListMap : Value → Except String (List (String × List String)) :=
  decMap (List String) decStrList

/-- Serialization of a `HashMap<String, Vec<String>>` field. -/
def encStrListMap (m : List (String × List String)) : Value :=
  .obj (m.map (fun e => (e.1, encStrList e.2)))

/-! ## `Type` and the `one_or_array` codec (src/lib.rs lines 1723-1799)

`Schema::type` is declared `#[serde(with = "one_or_array", default)]
pub r#type: Vec<Type>`: the field deserializes either one bare string or
a sequence of strings into a `Vec<Type>`, and serializes a vector of
length exactly 1 back to the bare scalar and any other length to the
sequence, in original order, with no sorting or de-duplication. -/

/-- `Type` (src/lib.rs lines 1789-1799); named `SchemaType` here because
`Type` is reserved in Lean. -/
inductive SchemaType where
  | null : SchemaType
  | boolean : SchemaType
  | object : SchemaType
  | array : SchemaType
  | number : SchemaType
  | string : SchemaType
  | integer : SchemaType
deriving DecidableEq

/-- Wire name of a `Type` variant (`rename_all = "camelCase"`). -/
def schemaTypeName : SchemaType → String
  | .null => "null"
  | .boolean => "boolean"
  | .object => "object"
  | .array => "array"
  | .number => "number"
  | .string => "string"
  | .integer => "integer"

/-- `Type`'s derived `Deserialize` from a string. -/
def parseSchemaType (s : String) : Except String SchemaType :=
  if s = "null" then .ok .null
  else if s = "boolean" then .ok .boolean
  else if s = "object" then .ok .object
  else if s = "array" then .ok .array
  else if s = "number" then .ok .number
  else if s = "string" then .ok .string
  else if s = "integer" then .ok .integer
  else .error "unknown variant of Type"

/-- `Type`'s codec applied to one element of a `type` sequence. -/
def decSchemaTypeVal : Value → Except String SchemaType
  | .str s => parseSchemaType s
  | _ => .error "invalid type: expected a string"

/-- `one_or_array::serialize` (src/lib.rs lines 1775-1783): length
exactly 1 serializes the bare scalar, every other length the
sequence. -/
def encodeTypes : List SchemaType → Value
  | [t] => .str (schemaTypeName t)
  | ts => .arr (ts.map (fun t => .str (schemaTypeName t)))

/-- `one_or_array::deserialize` (src/lib.rs lines 1737-1773): a string
visits as a singleton, a sequence element-wise in order (duplicates
preserved); anything else is rejected by the `OneOrArray` visitor. -/
def decodeTypes : Value → Except String (List SchemaType)
  | .str s => (fun t => [t]) <$> parseSchemaType s
  | .arr items => decList decSchemaTypeVal items
  | _ => .error "one or more types"

/-! ## `Format` and `FormatOrString` (src/lib.rs lines 1801-1961) -/

/-- `Format` (src/lib.rs lines 1815-1961): the fixed catalog of
recognized format tags. -/
inductive Format where
  | dateTime : Format
  | date : Format
  | time : Format
  | duration : Format
  | email : Format
  | idnEmail : Format
  | hostname : Format
  | idnHostname : Format
  | ipv4 : Format
  | ipv6 : Format
  | uri : Format
  | uriReference : Format
  | iri : Format
  | iriReference : Format
  | uuid : Format
  | uriTemplate : Format
  | jsonPointer : Format
  | relativeJsonPointer : Format
  | regex : Format
  | binary : Format
  | ip : Format
  | int32 : Format
  | int64 : Format
  | float : Format
  | double : Format
  | password : Format
deriving DecidableEq

/-- Canonical wire spelling of a `Format` variant (`rename_all =
"camelCase"` plus the `#[serde(rename)]`s). -/
def formatName : Format → String
  | .dateTime => "date-time"
  | .date => "date"
  | .time => "time"
  | .duration => "duration"
  | .email => "email"
  | .idnEmail => "idn-email"
  | .hostname => "hostname"
  | .idnHostname => "idn-hostname"
  | .ipv4 => "ipv4"
  | .ipv6 => "ipv6"
  | .uri => "uri"
  | .uriReference => "uri-reference"
  | .iri => "iri"
  | .iriReference => "iri-reference"
  | .uuid => "uuid"
  | .uriTemplate => "uri-template"
  | .jsonPointer => "json-pointer"
  | .relativeJsonPointer => "relative-json-pointer"
  | .regex => "regex"
  | .binary => "binary"
  | .ip => "ip"
  | .int32 => "int32"
  | .int64 => "int64"
  | .float => "float"
  | .double => "double"
  | .password => "password"

/-- `Format`'s derived `Deserialize` from a string: the canonical
spellings plus the historical `#[serde(alias)]`es (`full-date` → date,
`full-time`/`partial-time` → time, `url` → uri). -/
def parseFormat (s : String) : Option Format :=
  if s = "date-time" then some .dateTime
  else if s = "date" then some .date
  else if s = "full-date" then some .date
  else if s = "time" then some .time
  else if s = "full-time" then some .time
  else if s = "partial-time" then some .time
  else if s = "duration" then some .duration
  else if s = "email" then some .email
  else if s = "idn-email" then some .idnEmail
  else if s = "hostname" then some .hostname
  else if s = "idn-hostname" then some .idnHostname
  else if s = "ipv4" then some .ipv4
  else if s = "ipv6" then some .ipv6
  else if s = "uri" then some .uri
  else if s = "url" then some .uri
  else if s = "uri-reference" then some .uriReference
  else if s = "iri" then some .iri
  else if s = "iri-reference" then some .iriReference
  else if s = "uuid" then some .uuid
  else if s = "uri-template" then some .uriTemplate
  else if s = "json-pointer" then some .jsonPointer
  else if s = "relative-json-pointer" then some .relativeJsonPointer
  else if s = "regex" then some .regex
  else if s = "binary" then some .binary
  else if s = "ip" then some .ip
  else if s = "int32" then some .int32
  else if s = "int64" then some .int64
  else if s = "float" then some .float
  else if s = "double" then some .double
  else if s = "password" then some .password
  else none

/-- `FormatOrString` (src/lib.rs lines 1802-1807): `#[serde(untagged)]`,
so decoding tries `Format` first and falls back to the raw string. -/
inductive FormatOrString where
  | format (f : Format) : FormatOrString
  | other (s : String) : FormatOrString
deriving DecidableEq

/-- The derived `Serialize` of `FormatOrString`: recognized tags to their
canonical spelling, opaque strings verbatim. -/
def encodeFormatOrString : FormatOrString → Value
  | .format f => .str (formatName f)
  | .other s => .str s

/-- The derived (untagged) `Deserialize` of `FormatOrString`. -/
def decodeFormatOrString : Value → Except String FormatOrString
  | .str s =>
      match parseFormat s with
      | some f => .ok (.format f)
      | none => .ok (.other s)
  | _ => .error "data did not match any variant of untagged enum FormatOrString"

/-! ## `Discriminator` (src/lib.rs lines 1977-1985) -/

/-- `Discriminator`: required `propertyName`, defaulted `mapping`. -/
structure Discriminator where
  property_name : String
  mapping : List (String × String)

/-- Visitor accumulator for `Discriminator`. -/
structure DiscriminatorAcc where
  property_name : Option String
  mapping : Option (List (String × String))

/-- One step of `Discriminator`'s visitor loop. -/
def discriminatorStep (acc : DiscriminatorAcc) (k : String) (v : Value) :
    Except String DiscriminatorAcc :=
  if k = "propertyName" then
    match acc.property_name with
    | some _ => .error "duplicate field propertyName"
    | none => (fun r => { acc with property_name := some r }) <$> decStr v
  else if k = "mapping" then
    match acc.mapping with
    | some _ => .error "duplicate field mapping"
    | none => (fun r => { acc with mapping := some r }) <$> decStrMap v
  else
    .ok acc

/-- The visitor loop of `Discriminator`'s derived `Deserialize`. -/
def discriminatorLoop :
    DiscriminatorAcc → List (String × Value) → Except String DiscriminatorAcc
  | acc, [] => .ok acc
  | acc, (k, v) :: rest =>
      match discriminatorStep acc k v with
      | .error e => .error e
      | .ok acc' => discriminatorLoop acc' rest

/-- The derived `Deserialize` of `Discriminator` from a value:
`propertyName` is required, `mapping` defaults to empty. -/
def decodeDiscriminator : Value → Except String Discriminator
  | .obj kvs =>
      match discriminatorLoop ⟨none, none⟩ kvs with
      | .error e => .error e
      | .ok acc =>
          match acc.property_name with
          | none => .error "missing field propertyName"
          | some n => .ok ⟨n, acc.mapping.getD []⟩
  | _ => .error "invalid type: expected a map"

/-- The derived `Serialize` of `Discriminator`. -/
def encodeDiscriminator (d : Discriminator) : Value :=
  .obj [("propertyName", .str d.property_name), ("mapping", encStrMap d.mapping)]

/-! ## `Xml` (src/lib.rs lines 1995-2024) -/

/-- `Xml`: all fields optional or defaulted.  The Lean field names
`name_space`, `pfx` and `attr` stand for the source fields `namespace`,
`prefix` and `attribute`, which are reserved words in Lean. -/
structure Xml where
  name : Option String
  name_space : Option String
  pfx : Option String
  attr : Bool
  wrapped : Bool

/-- Visitor accumulator for `Xml`. -/
structure XmlAcc where
  name : Option (Option String)
  name_space : Option (Option String)
  pfx : Option (Option String)
  attr : Option Bool
  wrapped : Option Bool

/-- One step of `Xml`'s visitor loop. -/
def xmlStep (acc : XmlAcc) (k : String) (v : Value) : Except String XmlAcc :=
  if k = "name" then
    match acc.name with
    | some _ => .error "duplicate field name"
    | none => (fun r => { acc with name := some r }) <$> decOptStr v
  else if k = "namespace" then
    match acc.name_space with
    | some _ => .error "duplicate field namespace"
    | none => (fun r => { acc with name_space := some r }) <$> decOptStr v
  else if k = "prefix" then
    match acc.pfx with
    | some _ => .error "duplicate field prefix"
    | none => (fun r => { acc with pfx := some r }) <$> decOptStr v
  else if k = "attribute" then
    match acc.attr with
    | some _ => .error "duplicate field attribute"
    | none => (fun r => { acc with attr := some r }) <$> decBool v
  else if k = "wrapped" then
    match acc.wrapped with
    | some _ => .error "duplicate field wrapped"
    | none => (fun r => { acc with wrapped := some r }) <$> decBool v
  else
    .ok acc

/-- The visitor loop of `Xml`'s derived `Deserialize`. -/
def xmlLoop : XmlAcc → List (String × Value) → Except String XmlAcc
  | acc, [] => .ok acc
  | acc, (k, v) :: rest =>
      match xmlStep acc k v with
      | .error e => .error e
      | .ok acc' => xmlLoop acc' rest

/-- The derived `Deserialize` of `Xml` from a value. -/
def decodeXml : Value → Except String Xml
  | .obj kvs =>
      match xmlLoop ⟨none, none, none, none, none⟩ kvs with
      | .error e => .error e
      | .ok acc =>
          .ok ⟨acc.name.getD none, acc.name_space.getD none,
            acc.pfx.getD none, acc.attr.getD false,
            acc.wrapped.getD false⟩
  | _ => .error "invalid type: expected a map"

/-- The derived `Serialize` of `Xml`. -/
def encodeXml (x : Xml) : Value :=
  .obj [("name", encOptStr x.name), ("namespace", encOptStr x.name_space),
    ("prefix", encOptStr x.pfx), ("attribute", .bool x.attr),
    ("wrapped", .bool x.wrapped)]

/-! ## `ExternalDocument`'s codec (src/lib.rs lines 452-463) -/

/-- Visitor accumulator for `ExternalDocument`. -/
structure ExternalDocumentAcc where
  description : Option (Option String)
  url : Option String

/-- One step of `ExternalDocument`'s visitor loop. -/
def externalDocumentStep (acc : ExternalDocumentAcc) (k : String) (v : Value) :
    Except String ExternalDocumentAcc :=
  if k = "description" then
    match acc.description with
    | some _ => .error "duplicate field description"
    | none => (fun r => { acc with description := some r }) <$> decOptStr v
  else if k = "url" then
    match acc.url with
    | some _ => .error "duplicate field url"
    | none => (fun r => { acc with url := some r }) <$> decStr v
  else
    .ok acc

/-- The visitor loop of `ExternalDocument`'s derived `Deserialize`. -/
def externalDocumentLoop :
    ExternalDocumentAcc → List (String × Value) →
      Except String ExternalDocumentAcc
  | acc, [] => .ok acc
  | acc, (k, v) :: rest =>
      match externalDocumentStep acc k v with
      | .error e => .error e
      | .ok acc' => externalDocumentLoop acc' rest

/-- The derived `Deserialize` of `ExternalDocument` from a value: `url`
is required (no `#[serde(default)]`). -/
def decodeExternalDocument : Value → Except String ExternalDocument
  | .obj kvs =>
      match externalDocumentLoop ⟨none, none⟩ kvs with
      | .error e => .error e
      | .ok acc =>
          match acc.url with
          | none => .error "missing field url"
          | some u => .ok ⟨acc.description.getD none, u⟩
  | _ => .error "invalid type: expected a map"

/-- The derived `Serialize` of `ExternalDocument`. -/
def encodeExternalDocument (ed : ExternalDocument) : Value :=
  .obj [("description", encOptStr ed.description), ("url", .str ed.url)]

/-! ## `Schema` (src/lib.rs lines 1150-1721)

The central recursive entity: the 56 declared fields in declaration
order plus the `#[serde(flatten)] extensions` map.  Lean renames:
`if_schema`/`then_schema`/`else_schema` for the source fields
`if`/`then`/`else` and `example_value` for `example` (Lean keywords);
the source's own field-name typo `unique_ttems` is kept, so its wire
name is `"uniqueTtems"`.  `Schema` must be an inductive type (Lean
structures cannot be recursive); `Box` indirections carry no semantics
and are dropped. -/

/-- `Schema` (src/lib.rs lines 1150-1721). -/
inductive Schema where
  | mk
      (schema : Option String)
      (id : Option String)
      (ref : Option String)
      (comment : Option String)
      (all_of : Option (List Schema))
      (any_of : Option (List Schema))
      (one_of : Option (List Schema))
      (not : Option Schema)
      (if_schema : Option Schema)
      (then_schema : Option Schema)
      (else_schema : Option Schema)
      (dependent_schemas : List (String × Schema))
      (prefix_items : List Schema)
      (items : Option Schema)
      (contains : Option Schema)
      (properties : Option (List (String × Schema)))
      (pattern_properties : List (String × Schema))
      (additional_properties : Option Schema)
      (property_names : Option Schema)
      (unevaluated_items : Option Schema)
      (unevaluated_properties : Option Schema)
      (type : List SchemaType)
      (enum : List String)
      (const : Option String)
      (multiple_of : Option Int)
      (maximum : Option Int)
      (exclusive_maximum : Option Int)
      (minimum : Option Int)
      (exclusive_minimum : Option Int)
      (max_length : Option Nat)
      (min_length : Option Nat)
      (pattern : Option String)
      (max_items : Option Nat)
      (min_items : Option Nat)
      (unique_ttems : Bool)
      (max_contains : Option Nat)
      (min_contains : Option Nat)
      (max_properties : Option Nat)
      (min_properties : Option Nat)
      (required : List String)
      (dependent_required : List (String × List String))
      (format : Option FormatOrString)
      (content_encoding : Option String)
      (content_media_type : Option String)
      (content_schema : Option Schema)
      (title : Option String)
      (description : Option String)
      (default : Option Value)
      (deprecated : Bool)
      (read_only : Bool)
      (write_only : Bool)
      (examples : List Value)
      (discriminator : Option Discriminator)
      (xml : Option Xml)
      (external_docs : Option ExternalDocument)
      (example_value : Option Value)
      (extensions : List (String × Value))
      : Schema

/-- The open extension mapping of a `Schema` (`Schema::extensions`,
src/lib.rs lines 1717-1720). -/
def Schema.extensions : Schema → List (String × Value)
  | .mk _ _ _ _ _ _ _ _ _ _ _ _ _ _ _ _ _ _ _ _ _ _ _ _ _ _ _ _ _ _ _ _ _ _ _ _ _ _ _ _ _ _ _ _ _ _ _ _ _ _ _ _ _ _ _ _ ext => ext

/-- Replace a `Schema`'s extension mapping (used to state claim C8). -/
def Schema.withExtensions : Schema → List (String × Value) → Schema
  | .mk x0 x1 x2 x3 x4 x5 x6 x7 x8 x9 x10 x11 x12 x13 x14 x15 x16 x17 x18 x19 x20 x21 x22 x23 x24 x25 x26 x27 x28 x29 x30 x31 x32 x33 x34 x35 x36 x37 x38 x39 x40 x41 x42 x43 x44 x45 x46 x47 x48 x49 x50 x51 x52 x53 x54 x55 _, ext =>
      .mk x0 x1 x2 x3 x4 x5 x6 x7 x8 x9 x10 x11 x12 x13 x14 x15 x16 x17 x18 x19 x20 x21 x22 x23 x24 x25 x26 x27 x28 x29 x30 x31 x32 x33 x34 x35 x36 x37 x38 x39 x40 x41 x42 x43 x44 x45 x46 x47 x48 x49 x50 x51 x52 x53 x54 x55 ext

/-- Whether a key is one of `Schema`'s 56 declared wire names; every
other key is captured by the flattened `extensions` map. -/
def recognizedSchemaKey (k : String) : Bool :=
  k == "$schema" || k == "$id" || k == "$ref" || k == "$comment" ||
    k == "allOf" || k == "anyOf" || k == "oneOf" || k == "not" || k == "if" ||
    k == "then" || k == "else" || k == "dependentSchemas" ||
    k == "prefixItems" || k == "items" || k == "contains" ||
    k == "properties" || k == "patternProperties" ||
    k == "additionalProperties" || k == "propertyNames" ||
    k == "unevaluatedItems" || k == "unevaluatedProperties" || k == "type" ||
    k == "enum" || k == "const" || k == "multipleOf" || k == "maximum" ||
    k == "exclusiveMaximum" || k == "minimum" || k == "exclusiveMinimum" ||
    k == "maxLength" || k == "minLength" || k == "pattern" ||
    k == "maxItems" || k == "minItems" || k == "uniqueTtems" ||
    k == "maxContains" || k == "minContains" || k == "maxProperties" ||
    k == "minProperties" || k == "required" || k == "dependentRequired" ||
    k == "format" || k == "contentEncoding" || k == "contentMediaType" ||
    k == "contentSchema" || k == "title" || k == "description" ||
    k == "default" || k == "deprecated" || k == "readOnly" ||
    k == "writeOnly" || k == "examples" || k == "discriminator" ||
    k == "xml" || k == "externalDocs" || k == "example"

/-- Visitor accumulator for `Schema`'s derived `Deserialize`: one slot
per declared field (`none` = not seen yet).  The buffer of unmatched
entries (serde's `__collect` vector feeding the flattened map) is
carried separately by `schemaLoop`. -/
structure SchemaAcc where
  schema : Option (Option String)
  id : Option (Option String)
  ref : Option (Option String)
  comment : Option (Option String)
  all_of : Option (Option (List Schema))
  any_of : Option (Option (List Schema))
  one_of : Option (Option (List Schema))
  not : Option (Option Schema)
  if_schema : Option (Option Schema)
  then_schema : Option (Option Schema)
  else_schema : Option (Option Schema)
  dependent_schemas : Option (List (String × Schema))
  prefix_items : Option (List Schema)
  items : Option (Option Schema)
  contains : Option (Option Schema)
  properties : Option (Option (List (String × Schema)))
  pattern_properties : Option (List (String × Schema))
  additional_properties : Option (Option Schema)
  property_names : Option (Option Schema)
  unevaluated_items : Option (Option Schema)
  unevaluated_properties : Option (Option Schema)
  type : Option (List SchemaType)
  enum : Option (List String)
  const : Option (Option String)
  multiple_of : Option (Option Int)
  maximum : Option (Option Int)
  exclusive_maximum : Option (Option Int)
  minimum : Option (Option Int)
  exclusive_minimum : Option (Option Int)
  max_length : Option (Option Nat)
  min_length : Option (Option Nat)
  pattern : Option (Option String)
  max_items : Option (Option Nat)
  min_items : Option (Option Nat)
  unique_ttems : Option (Bool)
  max_contains : Option (Option Nat)
  min_contains : Option (Option Nat)
  max_properties : Option (Option Nat)
  min_properties : Option (Option Nat)
  required : Option (List String)
  dependent_required : Option (List (String × List String))
  format : Option (Option FormatOrString)
  content_encoding : Option (Option String)
  content_media_type : Option (Option String)
  content_schema : Option (Option Schema)
  title : Option (Option String)
  description : Option (Option String)
  default : Option (Option Value)
  deprecated : Option (Bool)
  read_only : Option (Bool)
  write_only : Option (Bool)
  examples : Option (List Value)
  discriminator : Option (Option Discriminator)
  xml : Option (Option Xml)
  external_docs : Option (Option ExternalDocument)
  example_value : Option (Option Value)

/-- The all-empty accumulator. -/
def SchemaAcc.init : SchemaAcc :=
  ⟨none, none, none, none, none, none, none, none, none, none, none, none, none, none, none, none, none, none, none, none, none, none, none, none, none, none, none, none, none, none, none, none, none, none, none, none, none, none, none, none, none, none, none, none, none, none, none, none, none, none, none, none, none, none, none, none⟩

/-- Final assembly of the decoded `Schema`: every declared field is an
`Option` or carries `#[serde(default)]`, so a missing key falls back to
its default; the collected unmatched entries become the extension
map. -/
def schemaFinish (acc : SchemaAcc) (ext : List (String × Value)) : Schema :=
  .mk
    (slotD acc.schema none)
    (slotD acc.id none)
    (slotD acc.ref none)
    (slotD acc.comment none)
    (slotD acc.all_of none)
    (slotD acc.any_of none)
    (slotD acc.one_of none)
    (slotD acc.not none)
    (slotD acc.if_schema none)
    (slotD acc.then_schema none)
    (slotD acc.else_schema none)
    (slotD acc.dependent_schemas [])
    (slotD acc.prefix_items [])
    (slotD acc.items none)
    (slotD acc.contains none)
    (slotD acc.properties none)
    (slotD acc.pattern_properties [])
    (slotD acc.additional_properties none)
    (slotD acc.property_names none)
    (slotD acc.unevaluated_items none)
    (slotD acc.unevaluated_properties none)
    (slotD acc.type [])
    (slotD acc.enum [])
    (slotD acc.const none)
    (slotD acc.multiple_of none)
    (slotD acc.maximum none)
    (slotD acc.exclusive_maximum none)
    (slotD acc.minimum none)
    (slotD acc.exclusive_minimum none)
    (slotD acc.max_length none)
    (slotD acc.min_length none)
    (slotD acc.pattern none)
    (slotD acc.max_items none)
    (slotD acc.min_items none)
    (slotD acc.unique_ttems false)
    (slotD acc.max_contains none)
    (slotD acc.min_contains none)
    (slotD acc.max_properties none)
    (slotD acc.min_properties none)
    (slotD acc.required [])
    (slotD acc.dependent_required [])
    (slotD acc.format none)
    (slotD acc.content_encoding none)
    (slotD acc.content_media_type none)
    (slotD acc.content_schema none)
    (slotD acc.title none)
    (slotD acc.description none)
    (slotD acc.default none)
    (slotD acc.deprecated false)
    (slotD acc.read_only false)
    (slotD acc.write_only false)
    (slotD acc.examples [])
    (slotD acc.discriminator none)
    (slotD acc.xml none)
    (slotD acc.external_docs none)
    (slotD acc.example_value none)
    ext

/-! ### The recursive `Schema` codec

`Schema` is recursive through seventeen applicator fields.  The codec is
embedded in two layers:

 * *parametric layer*: every per-field decoder/encoder and the visitor
   loop take the codec for a child `Schema` as an explicit function
   argument `dec`/`enc` — exactly how serde composes the derived codec
   of a struct with the codecs of its field types;
 * *recursion knot*: `decodeSchemaVal fuel` / `encodeSchemaVal fuel` tie
   the knot with an explicit depth budget (serde_json enforces exactly
   such a recursion limit — 128 levels by default — and the spec (§4.2)
   assigns depth limiting to the codec).  Every theorem below is either
   uniform in the budget or supplies a sufficient one, so no statement
   depends on the particular limit.

With the budget consumed one unit per nesting level, all definitions are
structurally recursive and evaluate by `rfl`/`decide` on closed
inputs. -/

/-- `Option<Box<Schema>>` field values: `null` is `None`, anything else
decodes as a child `Schema`. -/
def decodeOptSchema (dec : Value → Except String Schema) :
    Value → Except String (Option Schema)
  | .null => .ok none
  | v => (fun s => some s) <$> dec v

/-- Element-wise decoding of a schema sequence. -/
def decodeSchemaArr (dec : Value → Except String Schema) :
    List Value → Except String (List Schema)
  | [] => .ok []
  | v :: rest =>
      match dec v with
      | .error e => .error e
      | .ok s =>
          match decodeSchemaArr dec rest with
          | .error e => .error e
          | .ok l => .ok (s :: l)

/-- `Option<Vec<Schema>>` field values. -/
def decodeOptSchemaList (dec : Value → Except String Schema) :
    Value → Except String (Option (List Schema))
  | .null => .ok none
  | .arr items => (fun l => some l) <$> decodeSchemaArr dec items
  | _ => .error "invalid type: expected a sequence"

/-- `Vec<Schema>` field values (`prefixItems`). -/
def decodeSchemaArrVal (dec : Value → Except String Schema) :
    Value → Except String (List Schema)
  | .arr items => decodeSchemaArr dec items
  | _ => .error "invalid type: expected a sequence"

/-- Entry-wise decoding of a name → schema map. -/
def decodeSchemaPairs (dec : Value → Except String Schema) :
    List (String × Value) → Except String (List (String × Schema))
  | [] => .ok []
  | (k, v) :: rest =>
      match dec v with
      | .error e => .error e
      | .ok s =>
          match decodeSchemaPairs dec rest with
          | .error e => .error e
          | .ok l => .ok ((k, s) :: l)

/-- `Option<HashMap<String, Schema>>` field values (`properties`). -/
def decodeOptSchemaPairs (dec : Value → Except String Schema) :
    Value → Except String (Option (List (String × Schema)))
  | .null => .ok none
  | .obj kvs => (fun l => some l) <$> decodeSchemaPairs dec kvs
  | _ => .error "invalid type: expected a map"

/-- `HashMap<String, Schema>` field values (`dependentSchemas`,
`patternProperties`). -/
def decodeSchemaPairsVal (dec : Value → Except String Schema) :
    Value → Except String (List (String × Schema))
  | .obj kvs => decodeSchemaPairs dec kvs
  | _ => .error "invalid type: expected a map"

/-- Dispatch of one recognized key to its field slot: a repeated key is
a "duplicate field" error, otherwise the value is decoded by the field
type's deserializer (`dec` decodes a child `Schema`).  The final branch
is unreachable: `schemaLoop` only calls this under
`recognizedSchemaKey`. -/
def schemaKnownStep (dec : Value → Except String Schema)
    (acc : SchemaAcc) (k : String) (v : Value) : Except String SchemaAcc :=
  if k = "$schema" then
    match acc.schema with
    | some _ => .error "duplicate field $schema"
    | none => (fun r => { acc with schema := some r }) <$> decOptStr v
  else if k = "$id" then
    match acc.id with
    | some _ => .error "duplicate field $id"
    | none => (fun r => { acc with id := some r }) <$> decOptStr v
  else if k = "$ref" then
    match acc.ref with
    | some _ => .error "duplicate field $ref"
    | none => (fun r => { acc with ref := some r }) <$> decOptStr v
  else if k = "$comment" then
    match acc.comment with
    | some _ => .error "duplicate field $comment"
    | none => (fun r => { acc with comment := some r }) <$> decOptStr v
  else if k = "allOf" then
    match acc.all_of with
    | some _ => .error "duplicate field allOf"
    | none => (fun r => { acc with all_of := some r }) <$> decodeOptSchemaList dec v
  else if k = "anyOf" then
    match acc.any_of with
    | some _ => .error "duplicate field anyOf"
    | none => (fun r => { acc with any_of := some r }) <$> decodeOptSchemaList dec v
  else if k = "oneOf" then
    match acc.one_of with
    | some _ => .error "duplicate field oneOf"
    | none => (fun r => { acc with one_of := some r }) <$> decodeOptSchemaList dec v
  else if k = "not" then
    match acc.not with
    | some _ => .error "duplicate field not"
    | none => (fun r => { acc with not := some r }) <$> decodeOptSchema dec v
  else if k = "if" then
    match acc.if_schema with
    | some _ => .error "duplicate field if"
    | none => (fun r => { acc with if_schema := some r }) <$> decodeOptSchema dec v
  else if k = "then" then
    match acc.then_schema with
    | some _ => .error "duplicate field then"
    | none => (fun r => { acc with then_schema := some r }) <$> decodeOptSchema dec v
  else if k = "else" then
    match acc.else_schema with
    | some _ => .error "duplicate field else"
    | none => (fun r => { acc with else_schema := some r }) <$> decodeOptSchema dec v
  else if k = "dependentSchemas" then
    match acc.dependent_schemas with
    | some _ => .error "duplicate field dependentSchemas"
    | none => (fun r => { acc with dependent_schemas := some r }) <$> decodeSchemaPairsVal dec v
  else if k = "prefixItems" then
    match acc.prefix_items with
    | some _ => .error "duplicate field prefixItems"
    | none => (fun r => { acc with prefix_items := some r }) <$> decodeSchemaArrVal dec v
  else if k = "items" then
    match acc.items with
    | some _ => .error "duplicate field items"
    | none => (fun r => { acc with items := some r }) <$> decodeOptSchema dec v
  else if k = "contains" then
    match acc.contains with
    | some _ => .error "duplicate field contains"
    | none => (fun r => { acc with contains := some r }) <$> decodeOptSchema dec v
  else if k = "properties" then
    match acc.properties with
    | some _ => .error "duplicate field properties"
    | none => (fun r => { acc with properties := some r }) <$> decodeOptSchemaPairs dec v
  else if k = "patternProperties" then
    match acc.pattern_properties with
    | some _ => .error "duplicate field patternProperties"
    | none => (fun r => { acc with pattern_properties := some r }) <$> decodeSchemaPairsVal dec v
  else if k = "additionalProperties" then
    match acc.additional_properties with
    | some _ => .error "duplicate field additionalProperties"
    | none => (fun r => { acc with additional_properties := some r }) <$> decodeOptSchema dec v
  else if k = "propertyNames" then
    match acc.property_names with
    | some _ => .error "duplicate field propertyNames"
    | none => (fun r => { acc with property_names := some r }) <$> decodeOptSchema dec v
  else if k = "unevaluatedItems" then
    match acc.unevaluated_items with
    | some _ => .error "duplicate field unevaluatedItems"
    | none => (fun r => { acc with unevaluated_items := some r }) <$> decodeOptSchema dec v
  else if k = "unevaluatedProperties" then
    match acc.unevaluated_properties with
    | some _ => .error "duplicate field unevaluatedProperties"
    | none => (fun r => { acc with unevaluated_properties := some r }) <$> decodeOptSchema dec v
  else if k = "type" then
    match acc.type with
    | some _ => .error "duplicate field type"
    | none => (fun r => { acc with type := some r }) <$> decodeTypes v
  else if k = "enum" then
    match acc.enum with
    | some _ => .error "duplicate field enum"
    | none => (fun r => { acc with enum := some r }) <$> decStrList v
  else if k = "const" then
    match acc.const with
    | some _ => .error "duplicate field const"
    | none => (fun r => { acc with const := some r }) <$> decOptStr v
  else if k = "multipleOf" then
    match acc.multiple_of with
    | some _ => .error "duplicate field multipleOf"
    | none => (fun r => { acc with multiple_of := some r }) <$> decOptNum v
  else if k = "maximum" then
    match acc.maximum with
    | some _ => .error "duplicate field maximum"
    | none => (fun r => { acc with maximum := some r }) <$> decOptNum v
  else if k = "exclusiveMaximum" then
    match acc.exclusive_maximum with
    | some _ => .error "duplicate field exclusiveMaximum"
    | none => (fun r => { acc with exclusive_maximum := some r }) <$> decOptNum v
  else if k = "minimum" then
    match acc.minimum with
    | some _ => .error "duplicate field minimum"
    | none => (fun r => { acc with minimum := some r }) <$> decOptNum v
  else if k = "exclusiveMinimum" then
    match acc.exclusive_minimum with
    | some _ => .error "duplicate field exclusiveMinimum"
    | none => (fun r => { acc with exclusive_minimum := some r }) <$> decOptNum v
  else if k = "maxLength" then
    match acc.max_length with
    | some _ => .error "duplicate field maxLength"
    | none => (fun r => { acc with max_length := some r }) <$> decOptNat v
  else if k = "minLength" then
    match acc.min_length with
    | some _ => .error "duplicate field minLength"
    | none => (fun r => { acc with min_length := some r }) <$> decOptNat v
  else if k = "pattern" then
    match acc.pattern with
    | some _ => .error "duplicate field pattern"
    | none => (fun r => { acc with pattern := some r }) <$> decOptStr v
  else if k = "maxItems" then
    match acc.max_items with
    | some _ => .error "duplicate field maxItems"
    | none => (fun r => { acc with max_items := some r }) <$> decOptNat v
  else if k = "minItems" then
    match acc.min_items with
    | some _ => .error "duplicate field minItems"
    | none => (fun r => { acc with min_items := some r }) <$> decOptNat v
  else if k = "uniqueTtems" then
    match acc.unique_ttems with
    | some _ => .error "duplicate field uniqueTtems"
    | none => (fun r => { acc with unique_ttems := some r }) <$> decBool v
  else if k = "maxContains" then
    match acc.max_contains with
    | some _ => .error "duplicate field maxContains"
    | none => (fun r => { acc with max_contains := some r }) <$> decOptNat v
  else if k = "minContains" then
    match acc.min_contains with
    | some _ => .error "duplicate field minContains"
    | none => (fun r => { acc with min_contains := some r }) <$> decOptNat v
  else if k = "maxProperties" then
    match acc.max_properties with
    | some _ => .error "duplicate field maxProperties"
    | none => (fun r => { acc with max_properties := some r }) <$> decOptNat v
  else if k = "minProperties" then
    match acc.min_properties with
    | some _ => .error "duplicate field minProperties"
    | none => (fun r => { acc with min_properties := some r }) <$> decOptNat v
  else if k = "required" then
    match acc.required with
    | some _ => .error "duplicate field required"
    | none => (fun r => { acc with required := some r }) <$> decStrList v
  else if k = "dependentRequired" then
    match acc.dependent_required with
    | some _ => .error "duplicate field dependentRequired"
    | none => (fun r => { acc with dependent_required := some r }) <$> decStrListMap v
  else if k = "format" then
    match acc.format with
    | some _ => .error "duplicate field format"
    | none => (fun r => { acc with format := some r }) <$> decOpt decodeFormatOrString v
  else if k = "contentEncoding" then
    match acc.content_encoding with
    | some _ => .error "duplicate field contentEncoding"
    | none => (fun r => { acc with content_encoding := some r }) <$> decOptStr v
  else if k = "contentMediaType" then
    match acc.content_media_type with
    | some _ => .error "duplicate field contentMediaType"
    | none => (fun r => { acc with content_media_type := some r }) <$> decOptStr v
  else if k = "contentSchema" then
    match acc.content_schema with
    | some _ => .error "duplicate field contentSchema"
    | none => (fun r => { acc with content_schema := some r }) <$> decodeOptSchema dec v
  else if k = "title" then
    match acc.title with
    | some _ => .error "duplicate field title"
    | none => (fun r => { acc with title := some r }) <$> decOptStr v
  else if k = "description" then
    match acc.description with
    | some _ => .error "duplicate field description"
    | none => (fun r => { acc with description := some r }) <$> decOptStr v
  else if k = "default" then
    match acc.default with
    | some _ => .error "duplicate field default"
    | none => (fun r => { acc with default := some r }) <$> decOptAny v
  else if k = "deprecated" then
    match acc.deprecated with
    | some _ => .error "duplicate field deprecated"
    | none => (fun r => { acc with deprecated := some r }) <$> decBool v
  else if k = "readOnly" then
    match acc.read_only with
    | some _ => .error "duplicate field readOnly"
    | none => (fun r => { acc with read_only := some r }) <$> decBool v
  else if k = "writeOnly" then
    match acc.write_only with
    | some _ => .error "duplicate field writeOnly"
    | none => (fun r => { acc with write_only := some r }) <$> decBool v
  else if k = "examples" then
    match acc.examples with
    | some _ => .error "duplicate field examples"
    | none => (fun r => { acc with examples := some r }) <$> decAnyList v
  else if k = "discriminator" then
    match acc.discriminator with
    | some _ => .error "duplicate field discriminator"
    | none => (fun r => { acc with discriminator := some r }) <$> decOpt decodeDiscriminator v
  else if k = "xml" then
    match acc.xml with
    | some _ => .error "duplicate field xml"
    | none => (fun r => { acc with xml := some r }) <$> decOpt decodeXml v
  else if k = "externalDocs" then
    match acc.external_docs with
    | some _ => .error "duplicate field externalDocs"
    | none => (fun r => { acc with external_docs := some r }) <$> decOpt decodeExternalDocument v
  else if k = "example" then
    match acc.example_value with
    | some _ => .error "duplicate field example"
    | none => (fun r => { acc with example_value := some r }) <$> decOptAny v
  else .error "unreachable: unrecognized key"

/-- The visitor loop of `Schema`'s derived `Deserialize`: recognized
keys are dispatched to their field slot, every other entry is appended
to the collect buffer `ext` (serde's `__collect` vector feeding the
flattened `extensions` map) in encounter order. -/
def schemaLoop (dec : Value → Except String Schema)
    (acc : SchemaAcc) (ext : List (String × Value)) :
    List (String × Value) → Except String (SchemaAcc × List (String × Value))
  | [] => .ok (acc, ext)
  | (k, v) :: rest =>
      if recognizedSchemaKey k then
        match schemaKnownStep dec acc k v with
        | .error e => .error e
        | .ok acc' => schemaLoop dec acc' ext rest
      else
        schemaLoop dec acc (ext ++ [(k, v)]) rest

/-- The derived `Deserialize` of `Schema` from a field set (also the
target of `#[serde(flatten)]` positions), given the child-schema
decoder. -/
def decodeSchemaFields (dec : Value → Except String Schema)
    (kvs : List (String × Value)) : Except String Schema :=
  match schemaLoop dec SchemaAcc.init [] kvs with
  | .error e => .error e
  | .ok (acc, ext) => .ok (schemaFinish acc ext)

/-- The derived `Deserialize` of `Schema` from a value, with the depth
budget consumed one unit per nesting level (see the section comment:
serde_json's recursion limit). -/
def decodeSchemaVal : Nat → Value → Except String Schema
  | 0, _ => .error "recursion limit exceeded"
  | fuel + 1, .obj kvs => decodeSchemaFields (decodeSchemaVal fuel) kvs
  | _ + 1, _ => .error "invalid type: expected a map"

/-- `Option<Box<Schema>>` fields, given the child-schema encoder. -/
def encodeOptSchema (enc : Schema → Value) : Option Schema → Value
  | none => .null
  | some s => enc s

/-- `Option<Vec<Schema>>` fields. -/
def encodeOptSchemaList (enc : Schema → Value) : Option (List Schema) → Value
  | none => .null
  | some l => .arr (l.map enc)

/-- Entry-wise encoding of a name → schema map. -/
def encodeSchemaPairs (enc : Schema → Value) (l : List (String × Schema)) :
    List (String × Value) :=
  l.map (fun e => (e.1, enc e.2))

/-- `Option<HashMap<String, Schema>>` fields. -/
def encodeOptSchemaPairs (enc : Schema → Value) :
    Option (List (String × Schema)) → Value
  | none => .null
  | some l => .obj (encodeSchemaPairs enc l)

/-- The derived `Serialize` of `Schema` as its field list, given the
child-schema encoder: the 56 declared fields in declaration order under
their wire names (`None` as `null`, `type` through
`one_or_array::serialize`), then the extension entries flattened at the
same level. -/
def encodeSchemaFields (enc : Schema → Value) : Schema → List (String × Value)
  | .mk schema id ref comment all_of any_of one_of not if_schema then_schema else_schema dependent_schemas prefix_items items contains properties pattern_properties additional_properties property_names unevaluated_items unevaluated_properties type enum const multiple_of maximum exclusive_maximum minimum exclusive_minimum max_length min_length pattern max_items min_items unique_ttems max_contains min_contains max_properties min_properties required dependent_required format content_encoding content_media_type content_schema title description default deprecated read_only write_only examples discriminator xml external_docs example_value extensions =>
      [("$schema", encOptStr schema),
        ("$id", encOptStr id),
        ("$ref", encOptStr ref),
        ("$comment", encOptStr comment),
        ("allOf", encodeOptSchemaList enc all_of),
        ("anyOf", encodeOptSchemaList enc any_of),
        ("oneOf", encodeOptSchemaList enc one_of),
        ("not", encodeOptSchema enc not),
        ("if", encodeOptSchema enc if_schema),
        ("then", encodeOptSchema enc then_schema),
        ("else", encodeOptSchema enc else_schema),
        ("dependentSchemas", .obj (encodeSchemaPairs enc dependent_schemas)),
        ("prefixItems", .arr (prefix_items.map enc)),
        ("items", encodeOptSchema enc items),
        ("contains", encodeOptSchema enc contains),
        ("properties", encodeOptSchemaPairs enc properties),
        ("patternProperties", .obj (encodeSchemaPairs enc pattern_properties)),
        ("additionalProperties", encodeOptSchema enc additional_properties),
        ("propertyNames", encodeOptSchema enc property_names),
        ("unevaluatedItems", encodeOptSchema enc unevaluated_items),
        ("unevaluatedProperties", encodeOptSchema enc unevaluated_properties),
        ("type", encodeTypes type),
        ("enum", encStrList enum),
        ("const", encOptStr const),
        ("multipleOf", encOptNum multiple_of),
        ("maximum", encOptNum maximum),
        ("exclusiveMaximum", encOptNum exclusive_maximum),
        ("minimum", encOptNum minimum),
        ("exclusiveMinimum", encOptNum exclusive_minimum),
        ("maxLength", encOptNat max_length),
        ("minLength", encOptNat min_length),
        ("pattern", encOptStr pattern),
        ("maxItems", encOptNat max_items),
        ("minItems", encOptNat min_items),
        ("uniqueTtems", .bool unique_ttems),
        ("maxContains", encOptNat max_contains),
        ("minContains", encOptNat min_contains),
        ("maxProperties", encOptNat max_properties),
        ("minProperties", encOptNat min_properties),
        ("required", encStrList required),
        ("dependentRequired", encStrListMap dependent_required),
        ("format", encOpt encodeFormatOrString format),
        ("contentEncoding", encOptStr content_encoding),
        ("contentMediaType", encOptStr content_media_type),
        ("contentSchema", encodeOptSchema enc content_schema),
        ("title", encOptStr title),
        ("description", encOptStr description),
        ("default", encOptAny default),
        ("deprecated", .bool deprecated),
        ("readOnly", .bool read_only),
        ("writeOnly", .bool write_only),
        ("examples", .arr examples),
        ("discriminator", encOpt encodeDiscriminator discriminator),
        ("xml", encOpt encodeXml xml),
        ("externalDocs", encOpt encodeExternalDocument external_docs),
        ("example", encOptAny example_value)]
      ++ extensions

/-- The derived `Serialize` of `Schema` as a value, with the same depth
budget as the decoder (an exhausted budget yields `null`; under the
budgets used in every theorem below this branch is unreachable). -/
def encodeSchemaVal : Nat → Schema → Value
  | 0, _ => .null
  | fuel + 1, s => .obj (encodeSchemaFields (encodeSchemaVal fuel) s)

/-- One layer of the round-trip well-formedness check (claim C4), given
the check for child schemas: the extension keys avoid the 56 recognized
wire names (otherwise encode flattens them next to the declared fields
and decode fails on the duplicate key or misassigns them), `format` is
not an `Other` string spelling a recognized tag (the untagged decoder
would reparse it as the `Format` variant), and the `default`/`example`
payloads are not `Some Null` (wire `null` decodes to `None`). -/
def schemaWFStep (wf : Schema → Bool) : Schema → Bool
  | .mk _ _ _ _ all_of any_of one_of not if_schema then_schema else_schema dependent_schemas prefix_items items contains properties pattern_properties additional_properties property_names unevaluated_items unevaluated_properties _ _ _ _ _ _ _ _ _ _ _ _ _ _ _ _ _ _ _ _ format _ _ content_schema _ _ default _ _ _ _ _ _ _ example_value extensions =>
      extensions.all (fun e => !recognizedSchemaKey e.1)
      && ((match format with
        | some (.other s) => (parseFormat s).isNone
        | _ => true)
      && ((match default with
        | some .null => false
        | _ => true)
      && ((match example_value with
        | some .null => false
        | _ => true)
      && ((fun o => o.elim true (fun l => l.all wf)) all_of
      && ((fun o => o.elim true (fun l => l.all wf)) any_of
      && ((fun o => o.elim true (fun l => l.all wf)) one_of
      && ((fun o => o.elim true wf) not
      && ((fun o => o.elim true wf) if_schema
      && ((fun o => o.elim true wf) then_schema
      && ((fun o => o.elim true wf) else_schema
      && ((fun l => l.all (fun e => wf e.2)) dependent_schemas
      && ((fun l => l.all wf) prefix_items
      && ((fun o => o.elim true wf) items
      && ((fun o => o.elim true wf) contains
      && ((fun o => o.elim true (fun l => l.all (fun e => wf e.2))) properties
      && ((fun l => l.all (fun e => wf e.2)) pattern_properties
      && ((fun o => o.elim true wf) additional_properties
      && ((fun o => o.elim true wf) property_names
      && ((fun o => o.elim true wf) unevaluated_items
      && ((fun o => o.elim true wf) unevaluated_properties
      && ((fun o => o.elim true wf) content_schema)))))))))))))))))))))

/-- Round-trip well-formedness to a given depth: `schemaWF fuel s` also
certifies that the schema tree is nested less deeply than `fuel`, so it
is the only hypothesis the round-trip theorem needs. -/
def schemaWF : Nat → Schema → Bool
  | 0, _ => false
  | fuel + 1, s => schemaWFStep (schemaWF fuel) s

/-! ## Concrete `Schema` samples (inputs for the codec claims) -/

/-- The all-default schema: every `Option` field absent, every container
empty, every `bool` false. -/
def emptySchema : Schema :=
  .mk none none none none none none none none none none none [] [] none none
    none [] none none none none [] [] none none none none none none none none
    none none none false none none none none [] [] none none none none none
    none none false false false [] none none none none []

/-- `{"type": "string"}`: the schema of scenario E. -/
def schemaStr : Schema :=
  .mk none none none none none none none none none none none [] [] none none
    none [] none none none none [SchemaType.string] [] none none none none
    none none none none none none none false none none none none [] [] none
    none none none none none none false false false [] none none none none []

/-- A nested sample: an object schema with a child in `items`, a title
and a vendor extension. -/
def sampleSchema : Schema :=
  .mk none none none none none none none none none none none [] []
    (some schemaStr) none none [] none none none none [SchemaType.object] []
    none none none none none none none none none none none false none none
    none none [] [] none none none none (some "Sample") none none false false
    false [] none none none none [("x-test", .str "v")]

/-- `{"title": "T"}`: the recognized part of claim C8's witness input. -/
def titleSchema : Schema :=
  .mk none none none none none none none none none none none [] [] none none
    none [] none none none none [] [] none none none none none none none none
    none none none false none none none none [] [] none none none none
    (some "T")
    none none false false false [] none none none none []

/-! ## Claim-side renderings (defined from the specification's words, to be
compared with the source-derived blocks above) -/

/-- Spec §4.3 item 2 / claim C6, verbatim: "Description if present, else
Summary if present; if used, appended with a trailing period only if the
source text lacks one" — the paragraph (with its separating blank line)
that the claim says follows the title. -/
def c6Paragraph (description summary : Option String) : String :=
  match description with
  | some text => "\n\n" ++ text ++ (if endsWithDot text then "" else ".")
  | none =>
      match summary with
      | some text => "\n\n" ++ text ++ (if endsWithDot text then "" else ".")
      | none => ""

/-- The external-docs line exactly as claim C7 states it: description with
trailing period stripped (or the default text), `": "`, the url, and a
closing period — with no angle brackets around the url. -/
def c7StatedLine (ed : ExternalDocument) : String :=
  (match ed.description with
   | some d => stripDotSuffix d
   | none => "More documentation at")
    ++ ": " ++ ed.url ++ "."

/-- The external-docs line as the code actually forms it (claim C7
amended): as `c7StatedLine`, but with the url enclosed in angle
brackets. -/
def c7AmendedLine (ed : ExternalDocument) : String :=
  (match ed.description with
   | some d => stripDotSuffix d
   | none => "More documentation at")
    ++ ": <" ++ ed.url ++ ">."

/-! ## Concrete scenario inputs -/

/-- Scenario A input (spec §8): description absent, summary present. -/
def specScenarioA : Spec :=
  ⟨⟨"Pet Store", some "Sells pets", none, none, none, none, "1.0.0"⟩,
    none, [], [], none⟩

/-- Scenario B input (spec §8): contact with name and email both set. -/
def specScenarioB : Spec :=
  ⟨⟨"Pet Store", none, none, none,
      some ⟨some "Ana", none, some "a@x.com"⟩, none, "1.0.0"⟩,
    none, [], [], none⟩

/-- Scenario C input (spec §8): contact with email only. -/
def specScenarioC : Spec :=
  ⟨⟨"Pet Store", none, none, none,
      some ⟨none, none, some "a@x.com"⟩, none, "1.0.0"⟩,
    none, [], [], none⟩

/-- Scenario D input (spec §8): webhooks and root security both non-empty,
`jsonSchemaDialect` unset. -/
def specScenarioD : Spec :=
  ⟨⟨"Pet Store", none, none, none, none, none, "1.0.0"⟩,
    none, ["newPet"], [[("api_key", [])]], none⟩

/-- A spec with external documentation and no description on it
(exercises the default text of the external-docs line). -/
def specExtDocs : Spec :=
  ⟨⟨"T", none, none, none, none, none, "1"⟩,
    none, [], [], some ⟨none, "https://e.example"⟩⟩

/-! # Helper lemmas -/

/-- `String.append` acts as list append on the underlying character
data. -/
theorem data_append (a b : String) : (a ++ b).data = a.data ++ b.data := by
  cases a; cases b; rfl

/-- Inversion for `Except`'s functor map returning `ok`. -/
theorem except_map_ok {α β : Type} {f : α → β} {x : Except String α} {b : β}
    (h : f <$> x = .ok b) : ∃ a, x = .ok a ∧ b = f a := by
  cases x with
  | error e => simp [Except.map, Functor.map] at h
  | ok a => exact ⟨a, rfl, by simpa [Except.map, Functor.map] using h.symm⟩

/-- A successful `refStep` leaves the buffer unchanged on the three named
keys and appends the entry otherwise. -/
theorem refStep_buffer {acc acc' : RefAcc} {k : String} {v : Value}
    (h : refStep acc k v = .ok acc') :
    acc'.buffer = acc.buffer
      ++ (if k = "$ref" ∨ k = "summary" ∨ k = "description"
          then [] else [(k, v)]) := by
  simp only [refStep] at h
  by_cases h1 : k = "$ref"
  · rw [if_pos h1] at h
    cases hacc : acc.ref with
    | some r => rw [hacc] at h; cases h
    | none =>
        rw [hacc] at h
        obtain ⟨r, _, hb⟩ := except_map_ok h
        subst hb; simp [h1]
  · rw [if_neg h1] at h
    by_cases h2 : k = "summary"
    · rw [if_pos h2] at h
      cases hacc : acc.summary with
      | some r => rw [hacc] at h; cases h
      | none =>
          rw [hacc] at h
          obtain ⟨r, _, hb⟩ := except_map_ok h
          subst hb; simp [h2]
    · rw [if_neg h2] at h
      by_cases h3 : k = "description"
      · rw [if_pos h3] at h
        cases hacc : acc.description with
        | some r => rw [hacc] at h; cases h
        | none =>
            rw [hacc] at h
            obtain ⟨r, _, hb⟩ := except_map_ok h
            subst hb; simp [h3]
      · rw [if_neg h3] at h
        cases h
        simp [h1, h2, h3]

/-- A successful run of `Reference<T>`'s visitor loop buffers exactly the
entries whose key is none of the three named fields, in order. -/
theorem refLoop_buffer : ∀ (kvs : List (String × Value)) (acc acc' : RefAcc),
    refLoop acc kvs = .ok acc' →
    acc'.buffer = acc.buffer ++ refLeftover kvs := by
  intro kvs
  induction kvs with
  | nil =>
      intro acc acc' h
      simp only [refLoop] at h
      cases h
      simp [refLeftover]
  | cons e rest ih =>
      obtain ⟨k, v⟩ := e
      intro acc acc' h
      simp only [refLoop] at h
      cases hs : refStep acc k v with
      | error e' => rw [hs] at h; cases h
      | ok acc₁ =>
          rw [hs] at h
          have hb := refStep_buffer hs
          rw [ih acc₁ acc' h, hb]
          by_cases h1 : k = "$ref" <;> by_cases h2 : k = "summary" <;>
            by_cases h3 : k = "description" <;>
              simp [refLeftover, h1, h2, h3]

/-! ### Leaf codec round-trip lemmas -/

/-- `Except`'s bind on a success. -/
@[simp] theorem except_bind_ok {α β : Type} (a : α) (f : α → Except String β) :
    (Except.ok a >>= f) = f a := rfl

/-- `Except`'s map on a success. -/
@[simp] theorem except_map_ok' {α β : Type} (f : α → β) (a : α) :
    (f <$> (Except.ok a : Except String α)) = .ok (f a) := rfl

/-- Reading a filled slot. -/
@[simp] theorem slotD_some {α : Type} (x d : α) : slotD (some x) d = x := rfl

/-- Reading an empty slot. -/
@[simp] theorem slotD_none {α : Type} (d : α) : slotD none d = d := rfl

/-- `Option<String>` fields round-trip. -/
@[simp] theorem decOptStr_encOptStr (o : Option String) :
    decOptStr (encOptStr o) = .ok o := by cases o <;> rfl

/-- `Option<f64>` fields round-trip. -/
@[simp] theorem decOptNum_encOptNum (o : Option Int) :
    decOptNum (encOptNum o) = .ok o := by cases o <;> rfl

/-- `Option<usize>` fields round-trip. -/
@[simp] theorem decOptNat_encOptNat (o : Option Nat) :
    decOptNat (encOptNat o) = .ok o := by
  cases o with
  | none => rfl
  | some n => simp [decOptNat, encOptNat]

/-- `bool` fields round-trip. -/
@[simp] theorem decBool_bool (b : Bool) : decBool (.bool b) = .ok b := rfl

/-- `Vec<String>` fields round-trip. -/
@[simp] theorem decStrList_encStrList (l : List String) :
    decStrList (encStrList l) = .ok l := by
  induction l with
  | nil => rfl
  | cons a rest ih =>
      simp only [encStrList, List.map_cons] at ih ⊢
      simp only [decStrList, decList] at ih ⊢
      simp [decStr, ih]

/-- `Vec<Any>` fields round-trip. -/
@[simp] theorem decAnyList_arr (l : List Value) :
    decAnyList (.arr l) = .ok l := rfl

/-- `Option<Any>` fields round-trip unless the payload is `Some Null`
(wire `null` decodes to `None`). -/
theorem decOptAny_encOptAny (o : Option Value) (h : o ≠ some .null) :
    decOptAny (encOptAny o) = .ok o := by
  cases o with
  | none => rfl
  | some v => cases v <;> first | rfl | exact absurd rfl h

/-- `HashMap<String, String>` fields round-trip. -/
@[simp] theorem decStrMap_encStrMap (m : List (String × String)) :
    decStrMap (encStrMap m) = .ok m := by
  induction m with
  | nil => rfl
  | cons e rest ih =>
      obtain ⟨k, v⟩ := e
      simp only [encStrMap, List.map_cons] at ih ⊢
      simp only [decStrMap, decMap, decPairs] at ih ⊢
      simp [decStr, ih]

/-- `HashMap<String, Vec<String>>` fields round-trip. -/
@[simp] theorem decStrListMap_encStrListMap (m : List (String × List String)) :
    decStrListMap (encStrListMap m) = .ok m := by
  induction m with
  | nil => rfl
  | cons e rest ih =>
      obtain ⟨k, v⟩ := e
      simp only [encStrListMap, List.map_cons] at ih ⊢
      simp only [decStrListMap, decMap, decPairs] at ih ⊢
      simp [decStrList_encStrList, ih]

/-- `Type` strings round-trip. -/
@[simp] theorem parseSchemaType_name (t : SchemaType) :
    parseSchemaType (schemaTypeName t) = .ok t := by cases t <;> rfl

/-- Sequences of `Type` strings round-trip element-wise. -/
theorem decList_decSchemaTypeVal (l : List SchemaType) :
    decList decSchemaTypeVal (l.map (fun t => Value.str (schemaTypeName t)))
      = .ok l := by
  induction l with
  | nil => rfl
  | cons t rest ih => simp [decList, decSchemaTypeVal, ih]

/-- The `one_or_array` codec of `Schema::type` round-trips for every
length (bare scalar for length 1, sequence otherwise). -/
@[simp] theorem decodeTypes_encodeTypes (ts : List SchemaType) :
    decodeTypes (encodeTypes ts) = .ok ts := by
  match ts with
  | [] => rfl
  | [t] => simp [encodeTypes, decodeTypes]
  | t1 :: t2 :: rest =>
      simp [encodeTypes, decodeTypes, decList, decSchemaTypeVal,
        decList_decSchemaTypeVal]

/-- `Format` canonical spellings round-trip. -/
@[simp] theorem parseFormat_name (f : Format) :
    parseFormat (formatName f) = some f := by cases f <;> rfl

/-- `FormatOrString` round-trips unless it is an `Other` string spelling
a recognized tag (the untagged decoder reparses those as `Format`). -/
theorem decodeFormatOrString_enc (fo : FormatOrString)
    (h : (match fo with
          | .other s => (parseFormat s).isNone
          | _ => true) = true) :
    decodeFormatOrString (encodeFormatOrString fo) = .ok fo := by
  cases fo with
  | format g => simp [encodeFormatOrString, decodeFormatOrString]
  | other s =>
      simp only [Option.isNone_iff_eq_none] at h
      simp [encodeFormatOrString, decodeFormatOrString, h]

/-- `Option<T>` wrapping round-trips when `T` does and `T`'s encoding is
never `null`. -/
theorem decOpt_encOpt {α : Type} (dec : Value → Except String α)
    (enc : α → Value) (h1 : ∀ a, dec (enc a) = .ok a)
    (h2 : ∀ a, enc a ≠ .null) (o : Option α) :
    decOpt dec (encOpt enc o) = .ok o := by
  cases o with
  | none => rfl
  | some a =>
      have hd := h1 a
      simp only [encOpt]
      cases henc : enc a <;> rw [henc] at hd <;>
        first
        | exact absurd henc (h2 a)
        | simp [decOpt, hd]

/-- `Discriminator` round-trips. -/
@[simp] theorem decodeDiscriminator_enc (d : Discriminator) :
    decodeDiscriminator (encodeDiscriminator d) = .ok d := by
  obtain ⟨n, m⟩ := d
  simp [encodeDiscriminator, decodeDiscriminator, discriminatorLoop,
    discriminatorStep, decStr]

/-- `Xml` round-trips. -/
@[simp] theorem decodeXml_enc (x : Xml) : decodeXml (encodeXml x) = .ok x := by
  obtain ⟨n, ns, p, a, w⟩ := x
  simp [encodeXml, decodeXml, xmlLoop, xmlStep]

/-- `ExternalDocument` round-trips. -/
@[simp] theorem decodeExternalDocument_enc (ed : ExternalDocument) :
    decodeExternalDocument (encodeExternalDocument ed) = .ok ed := by
  obtain ⟨d, u⟩ := ed
  simp [encodeExternalDocument, decodeExternalDocument,
    externalDocumentLoop, externalDocumentStep, decStr]

/-! ### Child-container round-trip lemmas (parametric in the child codec
and in the well-formedness predicate certifying it) -/

/-- A well-formed schema never encodes to `null` (its encoding is an
object; and well-formedness at any depth budget implies the budget is
positive). -/
theorem encodeSchemaVal_ne_null (fuel : Nat) (s : Schema)
    (h : schemaWF fuel s = true) : encodeSchemaVal fuel s ≠ .null := by
  cases fuel with
  | zero => simp [schemaWF] at h
  | succ fuel => simp [encodeSchemaVal]

/-- Schema sequences round-trip element-wise. -/
theorem decodeSchemaArr_roundtrip {dec : Value → Except String Schema}
    {enc : Schema → Value} {wf : Schema → Bool}
    (hsound : ∀ c, wf c = true → dec (enc c) = .ok c)
    (l : List Schema) (hl : l.all wf = true) :
    decodeSchemaArr dec (l.map enc) = .ok l := by
  induction l with
  | nil => rfl
  | cons c rest ih =>
      simp only [List.all_cons, Bool.and_eq_true] at hl
      simp [decodeSchemaArr, hsound c hl.1, ih hl.2]

/-- Name → schema maps round-trip entry-wise. -/
theorem decodeSchemaPairs_roundtrip {dec : Value → Except String Schema}
    {enc : Schema → Value} {wf : Schema → Bool}
    (hsound : ∀ c, wf c = true → dec (enc c) = .ok c)
    (l : List (String × Schema)) (hl : l.all (fun e => wf e.2) = true) :
    decodeSchemaPairs dec (encodeSchemaPairs enc l) = .ok l := by
  induction l with
  | nil => rfl
  | cons e rest ih =>
      obtain ⟨k, c⟩ := e
      simp only [List.all_cons, Bool.and_eq_true] at hl
      have ih' := ih hl.2
      simp only [encodeSchemaPairs] at ih' ⊢
      simp [decodeSchemaPairs, hsound c hl.1, ih']

/-- `Option<Box<Schema>>` fields round-trip. -/
theorem decodeOptSchema_roundtrip {dec : Value → Except String Schema}
    {enc : Schema → Value} {wf : Schema → Bool}
    (hsound : ∀ c, wf c = true → dec (enc c) = .ok c)
    (hnn : ∀ c, wf c = true → enc c ≠ .null)
    (o : Option Schema) (ho : o.elim true wf = true) :
    decodeOptSchema dec (encodeOptSchema enc o) = .ok o := by
  cases o with
  | none => rfl
  | some c =>
      simp only [Option.elim] at ho
      have hd := hsound c ho
      simp only [encodeOptSchema]
      cases henc : enc c <;> rw [henc] at hd <;>
        first
        | exact absurd henc (hnn c ho)
        | simp [decodeOptSchema, hd]

/-- `Option<Vec<Schema>>` fields round-trip. -/
theorem decodeOptSchemaList_roundtrip {dec : Value → Except String Schema}
    {enc : Schema → Value} {wf : Schema → Bool}
    (hsound : ∀ c, wf c = true → dec (enc c) = .ok c)
    (o : Option (List Schema))
    (ho : o.elim true (fun l => l.all wf) = true) :
    decodeOptSchemaList dec (encodeOptSchemaList enc o) = .ok o := by
  cases o with
  | none => rfl
  | some l =>
      simp only [Option.elim] at ho
      simp [encodeOptSchemaList, decodeOptSchemaList,
        decodeSchemaArr_roundtrip hsound l ho]

/-- `Vec<Schema>` fields (`prefixItems`) round-trip. -/
theorem decodeSchemaArrVal_roundtrip {dec : Value → Except String Schema}
    {enc : Schema → Value} {wf : Schema → Bool}
    (hsound : ∀ c, wf c = true → dec (enc c) = .ok c)
    (l : List Schema) (hl : l.all wf = true) :
    decodeSchemaArrVal dec (.arr (l.map enc)) = .ok l := by
  simp [decodeSchemaArrVal, decodeSchemaArr_roundtrip hsound l hl]

/-- `HashMap<String, Schema>` fields round-trip. -/
theorem decodeSchemaPairsVal_roundtrip {dec : Value → Except String Schema}
    {enc : Schema → Value} {wf : Schema → Bool}
    (hsound : ∀ c, wf c = true → dec (enc c) = .ok c)
    (l : List (String × Schema)) (hl : l.all (fun e => wf e.2) = true) :
    decodeSchemaPairsVal dec (.obj (encodeSchemaPairs enc l)) = .ok l := by
  simp [decodeSchemaPairsVal, decodeSchemaPairs_roundtrip hsound l hl]

/-- `Option<HashMap<String, Schema>>` fields round-trip. -/
theorem decodeOptSchemaPairs_roundtrip {dec : Value → Except String Schema}
    {enc : Schema → Value} {wf : Schema → Bool}
    (hsound : ∀ c, wf c = true → dec (enc c) = .ok c)
    (o : Option (List (String × Schema)))
    (ho : o.elim true (fun l => l.all (fun e => wf e.2)) = true) :
    decodeOptSchemaPairs dec (encodeOptSchemaPairs enc o) = .ok o := by
  cases o with
  | none => rfl
  | some l =>
      simp only [Option.elim] at ho
      simp [encodeOptSchemaPairs, decodeOptSchemaPairs,
        decodeSchemaPairs_roundtrip hsound l ho]

/-! ### Visitor-loop lemmas for `Schema` -/

/-- The visitor loop splits over appended entry lists. -/
theorem schemaLoop_append (dec : Value → Except String Schema)
    (acc : SchemaAcc) (ext : List (String × Value))
    (xs ys : List (String × Value)) :
    schemaLoop dec acc ext (xs ++ ys)
      = match schemaLoop dec acc ext xs with
        | .error e => .error e
        | .ok (acc', ext') => schemaLoop dec acc' ext' ys := by
  induction xs generalizing acc ext with
  | nil => simp [schemaLoop]
  | cons e rest ih =>
      obtain ⟨k, v⟩ := e
      simp only [List.cons_append, schemaLoop]
      by_cases hk : recognizedSchemaKey k = true
      · rw [if_pos hk, if_pos hk]
        cases schemaKnownStep dec acc k v with
        | error e => rfl
        | ok acc' => exact ih acc' ext
      · rw [if_neg hk, if_neg hk]
        exact ih acc (ext ++ [(k, v)])

/-- Entries with unrecognized keys are buffered verbatim, in order, and
never make the loop fail. -/
theorem schemaLoop_unknown (dec : Value → Except String Schema)
    (acc : SchemaAcc) (ext l : List (String × Value))
    (h : l.all (fun e => !recognizedSchemaKey e.1) = true) :
    schemaLoop dec acc ext l = .ok (acc, ext ++ l) := by
  induction l generalizing ext with
  | nil => simp [schemaLoop]
  | cons e rest ih =>
      obtain ⟨k, v⟩ := e
      simp only [List.all_cons, Bool.and_eq_true, Bool.not_eq_true'] at h
      simp only [schemaLoop]
      rw [if_neg (by simp [h.1]), ih (ext ++ [(k, v)]) h.2]
      simp

/-- The buffer parameter only prefixes the collected entries. -/
theorem schemaLoop_ext_shift (dec : Value → Except String Schema)
    (acc : SchemaAcc) (ext l : List (String × Value)) :
    schemaLoop dec acc ext l
      = match schemaLoop dec acc [] l with
        | .error e => .error e
        | .ok (acc', ext') => .ok (acc', ext ++ ext') := by
  induction l generalizing acc ext with
  | nil => simp [schemaLoop]
  | cons e rest ih =>
      obtain ⟨k, v⟩ := e
      simp only [schemaLoop]
      by_cases hk : recognizedSchemaKey k = true
      · rw [if_pos hk, if_pos hk]
        cases schemaKnownStep dec acc k v with
        | error e => rfl
        | ok acc' => exact ih acc' ext
      · rw [if_neg hk, if_neg hk, ih acc (ext ++ [(k, v)]),
          ih acc (List.nil ++ [(k, v)])]
        cases schemaLoop dec acc [] rest with
        | error e => rfl
        | ok p => simp

/-- Dropping the unrecognized entries does not change the field slots:
the loop on the full list succeeds iff it succeeds on the recognized
part, with the unrecognized entries collected verbatim, in order. -/
theorem schemaLoop_filter (dec : Value → Except String Schema)
    (acc : SchemaAcc) (l : List (String × Value)) :
    schemaLoop dec acc [] l
      = match schemaLoop dec acc []
            (l.filter (fun e => recognizedSchemaKey e.1)) with
        | .error e => .error e
        | .ok (acc', _) =>
            .ok (acc', l.filter (fun e => !recognizedSchemaKey e.1)) := by
  induction l generalizing acc with
  | nil => simp [schemaLoop]
  | cons e rest ih =>
      obtain ⟨k, v⟩ := e
      by_cases hk : recognizedSchemaKey k = true
      · rw [List.filter_cons_of_pos (by simp [hk]),
          List.filter_cons_of_neg (by simp [hk])]
        simp only [schemaLoop]
        rw [if_pos hk, if_pos hk]
        cases schemaKnownStep dec acc k v with
        | error e => rfl
        | ok acc' => exact ih acc'
      · rw [List.filter_cons_of_neg (by simp [hk]),
          List.filter_cons_of_pos (by simp [hk])]
        simp only [schemaLoop]
        rw [if_neg hk]
        simp only [List.nil_append]
        rw [schemaLoop_ext_shift dec acc [(k, v)] rest, ih acc]
        cases schemaLoop dec acc []
            (rest.filter (fun e => recognizedSchemaKey e.1)) with
        | error e => rfl
        | ok p => simp

/-- `schemaFinish` and `withExtensions` interact trivially. -/
theorem schemaFinish_withExtensions (acc : SchemaAcc)
    (e l : List (String × Value)) :
    (schemaFinish acc e).withExtensions l = schemaFinish acc l := rfl

/-- `withExtensions` installs exactly the given mapping. -/
theorem extensions_withExtensions (s : Schema) (l : List (String × Value)) :
    (s.withExtensions l).extensions = l := by
  cases s; rfl

/-- `FormatOrString` never encodes to `null`. -/
theorem encodeFormatOrString_ne_null (fo : FormatOrString) :
    encodeFormatOrString fo ≠ .null := by
  cases fo <;> simp [encodeFormatOrString]

/-- `Discriminator` never encodes to `null`. -/
theorem encodeDiscriminator_ne_null (d : Discriminator) :
    encodeDiscriminator d ≠ .null := by
  simp [encodeDiscriminator]

/-- `Xml` never encodes to `null`. -/
theorem encodeXml_ne_null (x : Xml) : encodeXml x ≠ .null := by
  simp [encodeXml]

/-- `ExternalDocument` never encodes to `null`. -/
theorem encodeExternalDocument_ne_null (ed : ExternalDocument) :
    encodeExternalDocument ed ≠ .null := by
  simp [encodeExternalDocument]

/-! ### Pre-evaluated dispatch facts: one lemma per recognized key,
so the round-trip proof never re-evaluates the 56-way if-chains. -/

theorem recognizedSchemaKey_k0 : recognizedSchemaKey "$schema" = true := rfl

theorem recognizedSchemaKey_k1 : recognizedSchemaKey "$id" = true := rfl

theorem recognizedSchemaKey_k2 : recognizedSchemaKey "$ref" = true := rfl

theorem recognizedSchemaKey_k3 : recognizedSchemaKey "$comment" = true := rfl

theorem recognizedSchemaKey_k4 : recognizedSchemaKey "allOf" = true := rfl

theorem recognizedSchemaKey_k5 : recognizedSchemaKey "anyOf" = true := rfl

theorem recognizedSchemaKey_k6 : recognizedSchemaKey "oneOf" = true := rfl

theorem recognizedSchemaKey_k7 : recognizedSchemaKey "not" = true := rfl

theorem recognizedSchemaKey_k8 : recognizedSchemaKey "if" = true := rfl

theorem recognizedSchemaKey_k9 : recognizedSchemaKey "then" = true := rfl

theorem recognizedSchemaKey_k10 : recognizedSchemaKey "else" = true := rfl

theorem recognizedSchemaKey_k11 : recognizedSchemaKey "dependentSchemas" = true := rfl

theorem recognizedSchemaKey_k12 : recognizedSchemaKey "prefixItems" = true := rfl

theorem recognizedSchemaKey_k13 : recognizedSchemaKey "items" = true := rfl

theorem recognizedSchemaKey_k14 : recognizedSchemaKey "contains" = true := rfl

theorem recognizedSchemaKey_k15 : recognizedSchemaKey "properties" = true := rfl

theorem recognizedSchemaKey_k16 : recognizedSchemaKey "patternProperties" = true := rfl

theorem recognizedSchemaKey_k17 : recognizedSchemaKey "additionalProperties" = true := rfl

theorem recognizedSchemaKey_k18 : recognizedSchemaKey "propertyNames" = true := rfl

theorem recognizedSchemaKey_k19 : recognizedSchemaKey "unevaluatedItems" = true := rfl

theorem recognizedSchemaKey_k20 : recognizedSchemaKey "unevaluatedProperties" = true := rfl

theorem recognizedSchemaKey_k21 : recognizedSchemaKey "type" = true := rfl

theorem recognizedSchemaKey_k22 : recognizedSchemaKey "enum" = true := rfl

theorem recognizedSchemaKey_k23 : recognizedSchemaKey "const" = true := rfl

theorem recognizedSchemaKey_k24 : recognizedSchemaKey "multipleOf" = true := rfl

theorem recognizedSchemaKey_k25 : recognizedSchemaKey "maximum" = true := rfl

theorem recognizedSchemaKey_k26 : recognizedSchemaKey "exclusiveMaximum" = true := rfl

theorem recognizedSchemaKey_k27 : recognizedSchemaKey "minimum" = true := rfl

theorem recognizedSchemaKey_k28 : recognizedSchemaKey "exclusiveMinimum" = true := rfl

theorem recognizedSchemaKey_k29 : recognizedSchemaKey "maxLength" = true := rfl

theorem recognizedSchemaKey_k30 : recognizedSchemaKey "minLength" = true := rfl

theorem recognizedSchemaKey_k31 : recognizedSchemaKey "pattern" = true := rfl

theorem recognizedSchemaKey_k32 : recognizedSchemaKey "maxItems" = true := rfl

theorem recognizedSchemaKey_k33 : recognizedSchemaKey "minItems" = true := rfl

theorem recognizedSchemaKey_k34 : recognizedSchemaKey "uniqueTtems" = true := rfl

theorem recognizedSchemaKey_k35 : recognizedSchemaKey "maxContains" = true := rfl

theorem recognizedSchemaKey_k36 : recognizedSchemaKey "minContains" = true := rfl

theorem recognizedSchemaKey_k37 : recognizedSchemaKey "maxProperties" = true := rfl

theorem recognizedSchemaKey_k38 : recognizedSchemaKey "minProperties" = true := rfl

theorem recognizedSchemaKey_k39 : recognizedSchemaKey "required" = true := rfl

theorem recognizedSchemaKey_k40 : recognizedSchemaKey "dependentRequired" = true := rfl

theorem recognizedSchemaKey_k41 : recognizedSchemaKey "format" = true := rfl

theorem recognizedSchemaKey_k42 : recognizedSchemaKey "contentEncoding" = true := rfl

theorem recognizedSchemaKey_k43 : recognizedSchemaKey "contentMediaType" = true := rfl

theorem recognizedSchemaKey_k44 : recognizedSchemaKey "contentSchema" = true := rfl

theorem recognizedSchemaKey_k45 : recognizedSchemaKey "title" = true := rfl

theorem recognizedSchemaKey_k46 : recognizedSchemaKey "description" = true := rfl

theorem recognizedSchemaKey_k47 : recognizedSchemaKey "default" = true := rfl

theorem recognizedSchemaKey_k48 : recognizedSchemaKey "deprecated" = true := rfl

theorem recognizedSchemaKey_k49 : recognizedSchemaKey "readOnly" = true := rfl

theorem recognizedSchemaKey_k50 : recognizedSchemaKey "writeOnly" = true := rfl

theorem recognizedSchemaKey_k51 : recognizedSchemaKey "examples" = true := rfl

theorem recognizedSchemaKey_k52 : recognizedSchemaKey "discriminator" = true := rfl

theorem recognizedSchemaKey_k53 : recognizedSchemaKey "xml" = true := rfl

theorem recognizedSchemaKey_k54 : recognizedSchemaKey "externalDocs" = true := rfl

theorem recognizedSchemaKey_k55 : recognizedSchemaKey "example" = true := rfl

theorem schemaKnownStep_k0 (dec : Value → Except String Schema)
    (acc : SchemaAcc) (v : Value) :
    schemaKnownStep dec acc "$schema" v
      = match acc.schema with
        | some _ => .error "duplicate field $schema"
        | none => (fun r => { acc with schema := some r }) <$> decOptStr v := rfl

theorem schemaKnownStep_k1 (dec : Value → Except String Schema)
    (acc : SchemaAcc) (v : Value) :
    schemaKnownStep dec acc "$id" v
      = match acc.id with
        | some _ => .error "duplicate field $id"
        | none => (fun r => { acc with id := some r }) <$> decOptStr v := rfl

theorem schemaKnownStep_k2 (dec : Value → Except String Schema)
    (acc : SchemaAcc) (v : Value) :
    schemaKnownStep dec acc "$ref" v
      = match acc.ref with
        | some _ => .error "duplicate field $ref"
        | none => (fun r => { acc with ref := some r }) <$> decOptStr v := rfl

theorem schemaKnownStep_k3 (dec : Value → Except String Schema)
    (acc : SchemaAcc) (v : Value) :
    schemaKnownStep dec acc "$comment" v
      = match acc.comment with
        | some _ => .error "duplicate field $comment"
        | none => (fun r => { acc with comment := some r }) <$> decOptStr v := rfl

theorem schemaKnownStep_k4 (dec : Value → Except String Schema)
    (acc : SchemaAcc) (v : Value) :
    schemaKnownStep dec acc "allOf" v
      = match acc.all_of with
        | some _ => .error "duplicate field allOf"
        | none => (fun r => { acc with all_of := some r }) <$> decodeOptSchemaList dec v := rfl

theorem schemaKnownStep_k5 (dec : Value → Except String Schema)
    (acc : SchemaAcc) (v : Value) :
    schemaKnownStep dec acc "anyOf" v
      = match acc.any_of with
        | some _ => .error "duplicate field anyOf"
        | none => (fun r => { acc with any_of := some r }) <$> decodeOptSchemaList dec v := rfl

theorem schemaKnownStep_k6 (dec : Value → Except String Schema)
    (acc : SchemaAcc) (v : Value) :
    schemaKnownStep dec acc "oneOf" v
      = match acc.one_of with
        | some _ => .error "duplicate field oneOf"
        | none => (fun r => { acc with one_of := some r }) <$> decodeOptSchemaList dec v := rfl

theorem schemaKnownStep_k7 (dec : Value → Except String Schema)
    (acc : SchemaAcc) (v : Value) :
    schemaKnownStep dec acc "not" v
      = match acc.not with
        | some _ => .error "duplicate field not"
        | none => (fun r => { acc with not := some r }) <$> decodeOptSchema dec v := rfl

theorem schemaKnownStep_k8 (dec : Value → Except String Schema)
    (acc : SchemaAcc) (v : Value) :
    schemaKnownStep dec acc "if" v
      = match acc.if_schema with
        | some _ => .error "duplicate field if"
        | none => (fun r => { acc with if_schema := some r }) <$> decodeOptSchema dec v := rfl

theorem schemaKnownStep_k9 (dec : Value → Except String Schema)
    (acc : SchemaAcc) (v : Value) :
    schemaKnownStep dec acc "then" v
      = match acc.then_schema with
        | some _ => .error "duplicate field then"
        | none => (fun r => { acc with then_schema := some r }) <$> decodeOptSchema dec v := rfl

theorem schemaKnownStep_k10 (dec : Value → Except String Schema)
    (acc : SchemaAcc) (v : Value) :
    schemaKnownStep dec acc "else" v
      = match acc.else_schema with
        | some _ => .error "duplicate field else"
        | none => (fun r => { acc with else_schema := some r }) <$> decodeOptSchema dec v := rfl

theorem schemaKnownStep_k11 (dec : Value → Except String Schema)
    (acc : SchemaAcc) (v : Value) :
    schemaKnownStep dec acc "dependentSchemas" v
      = match acc.dependent_schemas with
        | some _ => .error "duplicate field dependentSchemas"
        | none => (fun r => { acc with dependent_schemas := some r }) <$> decodeSchemaPairsVal dec v := rfl

theorem schemaKnownStep_k12 (dec : Value → Except String Schema)
    (acc : SchemaAcc) (v : Value) :
    schemaKnownStep dec acc "prefixItems" v
      = match acc.prefix_items with
        | some _ => .error "duplicate field prefixItems"
        | none => (fun r => { acc with prefix_items := some r }) <$> decodeSchemaArrVal dec v := rfl

theorem schemaKnownStep_k13 (dec : Value → Except String Schema)
    (acc : SchemaAcc) (v : Value) :
    schemaKnownStep dec acc "items" v
      = match acc.items with
        | some _ => .error "duplicate field items"
        | none => (fun r => { acc with items := some r }) <$> decodeOptSchema dec v := rfl

theorem schemaKnownStep_k14 (dec : Value → Except String Schema)
    (acc : SchemaAcc) (v : Value) :
    schemaKnownStep dec acc "contains" v
      = match acc.contains with
        | some _ => .error "duplicate field contains"
        | none => (fun r => { acc with contains := some r }) <$> decodeOptSchema dec v := rfl

theorem schemaKnownStep_k15 (dec : Value → Except String Schema)
    (acc : SchemaAcc) (v : Value) :
    schemaKnownStep dec acc "properties" v
      = match acc.properties with
        | some _ => .error "duplicate field properties"
        | none => (fun r => { acc with properties := some r }) <$> decodeOptSchemaPairs dec v := rfl

theorem schemaKnownStep_k16 (dec : Value → Except String Schema)
    (acc : SchemaAcc) (v : Value) :
    schemaKnownStep dec acc "patternProperties" v
      = match acc.pattern_properties with
        | some _ => .error "duplicate field patternProperties"
        | none => (fun r => { acc with pattern_properties := some r }) <$> decodeSchemaPairsVal dec v := rfl

theorem schemaKnownStep_k17 (dec : Value → Except String Schema)
    (acc : SchemaAcc) (v : Value) :
    schemaKnownStep dec acc "additionalProperties" v
      = match acc.additional_properties with
        | some _ => .error "duplicate field additionalProperties"
        | none => (fun r => { acc with additional_properties := some r }) <$> decodeOptSchema dec v := rfl

theorem schemaKnownStep_k18 (dec : Value → Except String Schema)
    (acc : SchemaAcc) (v : Value) :
    schemaKnownStep dec acc "propertyNames" v
      = match acc.property_names with
        | some _ => .error "duplicate field propertyNames"
        | none => (fun r => { acc with property_names := some r }) <$> decodeOptSchema dec v := rfl

theorem schemaKnownStep_k19 (dec : Value → Except String Schema)
    (acc : SchemaAcc) (v : Value) :
    schemaKnownStep dec acc "unevaluatedItems" v
      = match acc.unevaluated_items with
        | some _ => .error "duplicate field unevaluatedItems"
        | none => (fun r => { acc with unevaluated_items := some r }) <$> decodeOptSchema dec v := rfl

theorem schemaKnownStep_k20 (dec : Value → Except String Schema)
    (acc : SchemaAcc) (v : Value) :
    schemaKnownStep dec acc "unevaluatedProperties" v
      = match acc.unevaluated_properties with
        | some _ => .error "duplicate field unevaluatedProperties"
        | none => (fun r => { acc with unevaluated_properties := some r }) <$> decodeOptSchema dec v := rfl

theorem schemaKnownStep_k21 (dec : Value → Except String Schema)
    (acc : SchemaAcc) (v : Value) :
    schemaKnownStep dec acc "type" v
      = match acc.type with
        | some _ => .error "duplicate field type"
        | none => (fun r => { acc with type := some r }) <$> decodeTypes v := rfl

theorem schemaKnownStep_k22 (dec : Value → Except String Schema)
    (acc : SchemaAcc) (v : Value) :
    schemaKnownStep dec acc "enum" v
      = match acc.enum with
        | some _ => .error "duplicate field enum"
        | none => (fun r => { acc with enum := some r }) <$> decStrList v := rfl

theorem schemaKnownStep_k23 (dec : Value → Except String Schema)
    (acc : SchemaAcc) (v : Value) :
    schemaKnownStep dec acc "const" v
      = match acc.const with
        | some _ => .error "duplicate field const"
        | none => (fun r => { acc with const := some r }) <$> decOptStr v := rfl

theorem schemaKnownStep_k24 (dec : Value → Except String Schema)
    (acc : SchemaAcc) (v : Value) :
    schemaKnownStep dec acc "multipleOf" v
      = match acc.multiple_of with
        | some _ => .error "duplicate field multipleOf"
        | none => (fun r => { acc with multiple_of := some r }) <$> decOptNum v := rfl

theorem schemaKnownStep_k25 (dec : Value → Except String Schema)
    (acc : SchemaAcc) (v : Value) :
    schemaKnownStep dec acc "maximum" v
      = match acc.maximum with
        | some _ => .error "duplicate field maximum"
        | none => (fun r => { acc with maximum := some r }) <$> decOptNum v := rfl

theorem schemaKnownStep_k26 (dec : Value → Except String Schema)
    (acc : SchemaAcc) (v : Value) :
    schemaKnownStep dec acc "exclusiveMaximum" v
      = match acc.exclusive_maximum with
        | some _ => .error "duplicate field exclusiveMaximum"
        | none => (fun r => { acc with exclusive_maximum := some r }) <$> decOptNum v := rfl

theorem schemaKnownStep_k27 (dec : Value → Except String Schema)
    (acc : SchemaAcc) (v : Value) :
    schemaKnownStep dec acc "minimum" v
      = match acc.minimum with
        | some _ => .error "duplicate field minimum"
        | none => (fun r => { acc with minimum := some r }) <$> decOptNum v := rfl

theorem schemaKnownStep_k28 (dec : Value → Except String Schema)
    (acc : SchemaAcc) (v : Value) :
    schemaKnownStep dec acc "exclusiveMinimum" v
      = match acc.exclusive_minimum with
        | some _ => .error "duplicate field exclusiveMinimum"
        | none => (fun r => { acc with exclusive_minimum := some r }) <$> decOptNum v := rfl

theorem schemaKnownStep_k29 (dec : Value → Except String Schema)
    (acc : SchemaAcc) (v : Value) :
    schemaKnownStep dec acc "maxLength" v
      = match acc.max_length with
        | some _ => .error "duplicate field maxLength"
        | none => (fun r => { acc with max_length := some r }) <$> decOptNat v := rfl

theorem schemaKnownStep_k30 (dec : Value → Except String Schema)
    (acc : SchemaAcc) (v : Value) :
    schemaKnownStep dec acc "minLength" v
      = match acc.min_length with
        | some _ => .error "duplicate field minLength"
        | none => (fun r => { acc with min_length := some r }) <$> decOptNat v := rfl

theorem schemaKnownStep_k31 (dec : Value → Except String Schema)
    (acc : SchemaAcc) (v : Value) :
    schemaKnownStep dec acc "pattern" v
      = match acc.pattern with
        | some _ => .error "duplicate field pattern"
        | none => (fun r => { acc with pattern := some r }) <$> decOptStr v := rfl

theorem schemaKnownStep_k32 (dec : Value → Except String Schema)
    (acc : SchemaAcc) (v : Value) :
    schemaKnownStep dec acc "maxItems" v
      = match acc.max_items with
        | some _ => .error "duplicate field maxItems"
        | none => (fun r => { acc with max_items := some r }) <$> decOptNat v := rfl

theorem schemaKnownStep_k33 (dec : Value → Except String Schema)
    (acc : SchemaAcc) (v : Value) :
    schemaKnownStep dec acc "minItems" v
      = match acc.min_items with
        | some _ => .error "duplicate field minItems"
        | none => (fun r => { acc with min_items := some r }) <$> decOptNat v := rfl

theorem schemaKnownStep_k34 (dec : Value → Except String Schema)
    (acc : SchemaAcc) (v : Value) :
    schemaKnownStep dec acc "uniqueTtems" v
      = match acc.unique_ttems with
        | some _ => .error "duplicate field uniqueTtems"
        | none => (fun r => { acc with unique_ttems := some r }) <$> decBool v := rfl

theorem schemaKnownStep_k35 (dec : Value → Except String Schema)
    (acc : SchemaAcc) (v : Value) :
    schemaKnownStep dec acc "maxContains" v
      = match acc.max_contains with
        | some _ => .error "duplicate field maxContains"
        | none => (fun r => { acc with max_contains := some r }) <$> decOptNat v := rfl

theorem schemaKnownStep_k36 (dec : Value → Except String Schema)
    (acc : SchemaAcc) (v : Value) :
    schemaKnownStep dec acc "minContains" v
      = match acc.min_contains with
        | some _ => .error "duplicate field minContains"
        | none => (fun r => { acc with min_contains := some r }) <$> decOptNat v := rfl

theorem schemaKnownStep_k37 (dec : Value → Except String Schema)
    (acc : SchemaAcc) (v : Value) :
    schemaKnownStep dec acc "maxProperties" v
      = match acc.max_properties with
        | some _ => .error "duplicate field maxProperties"
        | none => (fun r => { acc with max_properties := some r }) <$> decOptNat v := rfl

theorem schemaKnownStep_k38 (dec : Value → Except String Schema)
    (acc : SchemaAcc) (v : Value) :
    schemaKnownStep dec acc "minProperties" v
      = match acc.min_properties with
        | some _ => .error "duplicate field minProperties"
        | none => (fun r => { acc with min_properties := some r }) <$> decOptNat v := rfl

theorem schemaKnownStep_k39 (dec : Value → Except String Schema)
    (acc : SchemaAcc) (v : Value) :
    schemaKnownStep dec acc "required" v
      = match acc.required with
        | some _ => .error "duplicate field required"
        | none => (fun r => { acc with required := some r }) <$> decStrList v := rfl

theorem schemaKnownStep_k40 (dec : Value → Except String Schema)
    (acc : SchemaAcc) (v : Value) :
    schemaKnownStep dec acc "dependentRequired" v
      = match acc.dependent_required with
        | some _ => .error "duplicate field dependentRequired"
        | none => (fun r => { acc with dependent_required := some r }) <$> decStrListMap v := rfl

theorem schemaKnownStep_k41 (dec : Value → Except String Schema)
    (acc : SchemaAcc) (v : Value) :
    schemaKnownStep dec acc "format" v
      = match acc.format with
        | some _ => .error "duplicate field format"
        | none => (fun r => { acc with format := some r }) <$> decOpt decodeFormatOrString v := rfl

theorem schemaKnownStep_k42 (dec : Value → Except String Schema)
    (acc : SchemaAcc) (v : Value) :
    schemaKnownStep dec acc "contentEncoding" v
      = match acc.content_encoding with
        | some _ => .error "duplicate field contentEncoding"
        | none => (fun r => { acc with content_encoding := some r }) <$> decOptStr v := rfl

theorem schemaKnownStep_k43 (dec : Value → Except String Schema)
    (acc : SchemaAcc) (v : Value) :
    schemaKnownStep dec acc "contentMediaType" v
      = match acc.content_media_type with
        | some _ => .error "duplicate field contentMediaType"
        | none => (fun r => { acc with content_media_type := some r }) <$> decOptStr v := rfl

theorem schemaKnownStep_k44 (dec : Value → Except String Schema)
    (acc : SchemaAcc) (v : Value) :
    schemaKnownStep dec acc "contentSchema" v
      = match acc.content_schema with
        | some _ => .error "duplicate field contentSchema"
        | none => (fun r => { acc with content_schema := some r }) <$> decodeOptSchema dec v := rfl

theorem schemaKnownStep_k45 (dec : Value → Except String Schema)
    (acc : SchemaAcc) (v : Value) :
    schemaKnownStep dec acc "title" v
      = match acc.title with
        | some _ => .error "duplicate field title"
        | none => (fun r => { acc with title := some r }) <$> decOptStr v := rfl

theorem schemaKnownStep_k46 (dec : Value → Except String Schema)
    (acc : SchemaAcc) (v : Value) :
    schemaKnownStep dec acc "description" v
      = match acc.description with
        | some _ => .error "duplicate field description"
        | none => (fun r => { acc with description := some r }) <$> decOptStr v := rfl

theorem schemaKnownStep_k47 (dec : Value → Except String Schema)
    (acc : SchemaAcc) (v : Value) :
    schemaKnownStep dec acc "default" v
      = match acc.default with
        | some _ => .error "duplicate field default"
        | none => (fun r => { acc with default := some r }) <$> decOptAny v := rfl

theorem schemaKnownStep_k48 (dec : Value → Except String Schema)
    (acc : SchemaAcc) (v : Value) :
    schemaKnownStep dec acc "deprecated" v
      = match acc.deprecated with
        | some _ => .error "duplicate field deprecated"
        | none => (fun r => { acc with deprecated := some r }) <$> decBool v := rfl

theorem schemaKnownStep_k49 (dec : Value → Except String Schema)
    (acc : SchemaAcc) (v : Value) :
    schemaKnownStep dec acc "readOnly" v
      = match acc.read_only with
        | some _ => .error "duplicate field readOnly"
        | none => (fun r => { acc with read_only := some r }) <$> decBool v := rfl

theorem schemaKnownStep_k50 (dec : Value → Except String Schema)
    (acc : SchemaAcc) (v : Value) :
    schemaKnownStep dec acc "writeOnly" v
      = match acc.write_only with
        | some _ => .error "duplicate field writeOnly"
        | none => (fun r => { acc with write_only := some r }) <$> decBool v := rfl

theorem schemaKnownStep_k51 (dec : Value → Except String Schema)
    (acc : SchemaAcc) (v : Value) :
    schemaKnownStep dec acc "examples" v
      = match acc.examples with
        | some _ => .error "duplicate field examples"
        | none => (fun r => { acc with examples := some r }) <$> decAnyList v := rfl

theorem schemaKnownStep_k52 (dec : Value → Except String Schema)
    (acc : SchemaAcc) (v : Value) :
    schemaKnownStep dec acc "discriminator" v
      = match acc.discriminator with
        | some _ => .error "duplicate field discriminator"
        | none => (fun r => { acc with discriminator := some r }) <$> decOpt decodeDiscriminator v := rfl

theorem schemaKnownStep_k53 (dec : Value → Except String Schema)
    (acc : SchemaAcc) (v : Value) :
    schemaKnownStep dec acc "xml" v
      = match acc.xml with
        | some _ => .error "duplicate field xml"
        | none => (fun r => { acc with xml := some r }) <$> decOpt decodeXml v := rfl

theorem schemaKnownStep_k54 (dec : Value → Except String Schema)
    (acc : SchemaAcc) (v : Value) :
    schemaKnownStep dec acc "externalDocs" v
      = match acc.external_docs with
        | some _ => .error "duplicate field externalDocs"
        | none => (fun r => { acc with external_docs := some r }) <$> decOpt decodeExternalDocument v := rfl

theorem schemaKnownStep_k55 (dec : Value → Except String Schema)
    (acc : SchemaAcc) (v : Value) :
    schemaKnownStep dec acc "example" v
      = match acc.example_value with
        | some _ => .error "duplicate field example"
        | none => (fun r => { acc with example_value := some r }) <$> decOptAny v := rfl

/-! ### Chunked evaluation of the visitor loop over an encoded field
list: eight recognized entries at a time, each chunk lemma taking the
per-field decode facts as hypotheses. -/

theorem schemaLoopChunk0 (dec : Value → Except String Schema)
    {ext rest : List (String × Value)}
    {a8 : Option (Option Schema)} {a9 : Option (Option Schema)} {a10 :
    Option (Option Schema)} {a11 : Option (List (String × Schema))} {a12 :
    Option (List Schema)} {a13 : Option (Option Schema)} {a14 : Option
    (Option Schema)} {a15 : Option (Option (List (String × Schema)))} {a16
    : Option (List (String × Schema))} {a17 : Option (Option Schema)} {a18
    : Option (Option Schema)} {a19 : Option (Option Schema)} {a20 : Option
    (Option Schema)} {a21 : Option (List SchemaType)} {a22 : Option (List
    String)} {a23 : Option (Option String)} {a24 : Option (Option Int)}
    {a25 : Option (Option Int)} {a26 : Option (Option Int)} {a27 : Option
    (Option Int)} {a28 : Option (Option Int)} {a29 : Option (Option Nat)}
    {a30 : Option (Option Nat)} {a31 : Option (Option String)} {a32 :
    Option (Option Nat)} {a33 : Option (Option Nat)} {a34 : Option (Bool)}
    {a35 : Option (Option Nat)} {a36 : Option (Option Nat)} {a37 : Option
    (Option Nat)} {a38 : Option (Option Nat)} {a39 : Option (List String)}
    {a40 : Option (List (String × List String))} {a41 : Option (Option
    FormatOrString)} {a42 : Option (Option String)} {a43 : Option (Option
    String)} {a44 : Option (Option Schema)} {a45 : Option (Option String)}
    {a46 : Option (Option String)} {a47 : Option (Option Value)} {a48 :
    Option (Bool)} {a49 : Option (Bool)} {a50 : Option (Bool)} {a51 :
    Option (List Value)} {a52 : Option (Option Discriminator)} {a53 :
    Option (Option Xml)} {a54 : Option (Option ExternalDocument)} {a55 :
    Option (Option Value)} {v0 : Value} {v1 : Value} {v2 : Value} {v3 :
    Value} {v4 : Value} {v5 : Value} {v6 : Value} {v7 : Value} {r0 :
    Option String} {r1 : Option String} {r2 : Option String} {r3 : Option
    String} {r4 : Option (List Schema)} {r5 : Option (List Schema)} {r6 :
    Option (List Schema)} {r7 : Option Schema}
    (h0 : decOptStr v0 = .ok r0)
    (h1 : decOptStr v1 = .ok r1)
    (h2 : decOptStr v2 = .ok r2)
    (h3 : decOptStr v3 = .ok r3)
    (h4 : decodeOptSchemaList dec v4 = .ok r4)
    (h5 : decodeOptSchemaList dec v5 = .ok r5)
    (h6 : decodeOptSchemaList dec v6 = .ok r6)
    (h7 : decodeOptSchema dec v7 = .ok r7) :
    schemaLoop dec ⟨none, none, none, none, none, none, none, none, a8, a9,
          a10, a11, a12, a13, a14, a15, a16, a17, a18, a19, a20, a21, a22,
          a23, a24, a25, a26, a27, a28, a29, a30, a31, a32, a33, a34, a35,
          a36, a37, a38, a39, a40, a41, a42, a43, a44, a45, a46, a47, a48,
          a49, a50, a51, a52, a53, a54, a55⟩ ext
        (("$schema", v0) :: ("$id", v1) :: ("$ref", v2) :: ("$comment", v3)
          :: ("allOf", v4) :: ("anyOf", v5) :: ("oneOf", v6) :: ("not", v7)
          :: rest)
      = schemaLoop dec ⟨some r0, some r1, some r2, some r3, some r4, some
          r5, some r6, some r7, a8, a9, a10, a11, a12, a13, a14, a15, a16,
          a17, a18, a19, a20, a21, a22, a23, a24, a25, a26, a27, a28, a29,
          a30, a31, a32, a33, a34, a35, a36, a37, a38, a39, a40, a41, a42,
          a43, a44, a45, a46, a47, a48, a49, a50, a51, a52, a53, a54, a55⟩
          ext rest := by
  simp only [schemaLoop, recognizedSchemaKey_k0, recognizedSchemaKey_k1,
    recognizedSchemaKey_k2, recognizedSchemaKey_k3,
    recognizedSchemaKey_k4, recognizedSchemaKey_k5,
    recognizedSchemaKey_k6, recognizedSchemaKey_k7, schemaKnownStep_k0,
    schemaKnownStep_k1, schemaKnownStep_k2, schemaKnownStep_k3,
    schemaKnownStep_k4, schemaKnownStep_k5, schemaKnownStep_k6,
    schemaKnownStep_k7, h0, h1, h2, h3, h4, h5, h6, h7, except_map_ok',
    eq_self_iff_true, if_true]

theorem schemaLoopChunk1 (dec : Value → Except String Schema)
    {ext rest : List (String × Value)}
    {a0 : Option (Option String)} {a1 : Option (Option String)} {a2 :
    Option (Option String)} {a3 : Option (Option String)} {a4 : Option
    (Option (List Schema))} {a5 : Option (Option (List Schema))} {a6 :
    Option (Option (List Schema))} {a7 : Option (Option Schema)} {a16 :
    Option (List (String × Schema))} {a17 : Option (Option Schema)} {a18 :
    Option (Option Schema)} {a19 : Option (Option Schema)} {a20 : Option
    (Option Schema)} {a21 : Option (List SchemaType)} {a22 : Option (List
    String)} {a23 : Option (Option String)} {a24 : Option (Option Int)}
    {a25 : Option (Option Int)} {a26 : Option (Option Int)} {a27 : Option
    (Option Int)} {a28 : Option (Option Int)} {a29 : Option (Option Nat)}
    {a30 : Option (Option Nat)} {a31 : Option (Option String)} {a32 :
    Option (Option Nat)} {a33 : Option (Option Nat)} {a34 : Option (Bool)}
    {a35 : Option (Option Nat)} {a36 : Option (Option Nat)} {a37 : Option
    (Option Nat)} {a38 : Option (Option Nat)} {a39 : Option (List String)}
    {a40 : Option (List (String × List String))} {a41 : Option (Option
    FormatOrString)} {a42 : Option (Option String)} {a43 : Option (Option
    String)} {a44 : Option (Option Schema)} {a45 : Option (Option String)}
    {a46 : Option (Option String)} {a47 : Option (Option Value)} {a48 :
    Option (Bool)} {a49 : Option (Bool)} {a50 : Option (Bool)} {a51 :
    Option (List Value)} {a52 : Option (Option Discriminator)} {a53 :
    Option (Option Xml)} {a54 : Option (Option ExternalDocument)} {a55 :
    Option (Option Value)} {v8 : Value} {v9 : Value} {v10 : Value} {v11 :
    Value} {v12 : Value} {v13 : Value} {v14 : Value} {v15 : Value} {r8 :
    Option Schema} {r9 : Option Schema} {r10 : Option Schema} {r11 : List
    (String × Schema)} {r12 : List Schema} {r13 : Option Schema} {r14 :
    Option Schema} {r15 : Option (List (String × Schema))}
    (h8 : decodeOptSchema dec v8 = .ok r8)
    (h9 : decodeOptSchema dec v9 = .ok r9)
    (h10 : decodeOptSchema dec v10 = .ok r10)
    (h11 : decodeSchemaPairsVal dec v11 = .ok r11)
    (h12 : decodeSchemaArrVal dec v12 = .ok r12)
    (h13 : decodeOptSchema dec v13 = .ok r13)
    (h14 : decodeOptSchema dec v14 = .ok r14)
    (h15 : decodeOptSchemaPairs dec v15 = .ok r15) :
    schemaLoop dec ⟨a0, a1, a2, a3, a4, a5, a6, a7, none, none, none, none,
          none, none, none, none, a16, a17, a18, a19, a20, a21, a22, a23,
          a24, a25, a26, a27, a28, a29, a30, a31, a32, a33, a34, a35, a36,
          a37, a38, a39, a40, a41, a42, a43, a44, a45, a46, a47, a48, a49,
          a50, a51, a52, a53, a54, a55⟩ ext
        (("if", v8) :: ("then", v9) :: ("else", v10) :: ("dependentSchemas",
          v11) :: ("prefixItems", v12) :: ("items", v13) :: ("contains",
          v14) :: ("properties", v15) :: rest)
      = schemaLoop dec ⟨a0, a1, a2, a3, a4, a5, a6, a7, some r8, some r9,
          some r10, some r11, some r12, some r13, some r14, some r15, a16,
          a17, a18, a19, a20, a21, a22, a23, a24, a25, a26, a27, a28, a29,
          a30, a31, a32, a33, a34, a35, a36, a37, a38, a39, a40, a41, a42,
          a43, a44, a45, a46, a47, a48, a49, a50, a51, a52, a53, a54, a55⟩
          ext rest := by
  simp only [schemaLoop, recognizedSchemaKey_k8, recognizedSchemaKey_k9,
    recognizedSchemaKey_k10, recognizedSchemaKey_k11,
    recognizedSchemaKey_k12, recognizedSchemaKey_k13,
    recognizedSchemaKey_k14, recognizedSchemaKey_k15, schemaKnownStep_k8,
    schemaKnownStep_k9, schemaKnownStep_k10, schemaKnownStep_k11,
    schemaKnownStep_k12, schemaKnownStep_k13, schemaKnownStep_k14,
    schemaKnownStep_k15, h8, h9, h10, h11, h12, h13, h14, h15,
    except_map_ok', eq_self_iff_true, if_true]

theorem schemaLoopChunk2 (dec : Value → Except String Schema)
    {ext rest : List (String × Value)}
    {a0 : Option (Option String)} {a1 : Option (Option String)} {a2 :
    Option (Option String)} {a3 : Option (Option String)} {a4 : Option
    (Option (List Schema))} {a5 : Option (Option (List Schema))} {a6 :
    Option (Option (List Schema))} {a7 : Option (Option Schema)} {a8 :
    Option (Option Schema)} {a9 : Option (Option Schema)} {a10 : Option
    (Option Schema)} {a11 : Option (List (String × Schema))} {a12 : Option
    (List Schema)} {a13 : Option (Option Schema)} {a14 : Option (Option
    Schema)} {a15 : Option (Option (List (String × Schema)))} {a24 :
    Option (Option Int)} {a25 : Option (Option Int)} {a26 : Option (Option
    Int)} {a27 : Option (Option Int)} {a28 : Option (Option Int)} {a29 :
    Option (Option Nat)} {a30 : Option (Option Nat)} {a31 : Option (Option
    String)} {a32 : Option (Option Nat)} {a33 : Option (Option Nat)} {a34
    : Option (Bool)} {a35 : Option (Option Nat)} {a36 : Option (Option
    Nat)} {a37 : Option (Option Nat)} {a38 : Option (Option Nat)} {a39 :
    Option (List String)} {a40 : Option (List (String × List String))}
    {a41 : Option (Option FormatOrString)} {a42 : Option (Option String)}
    {a43 : Option (Option String)} {a44 : Option (Option Schema)} {a45 :
    Option (Option String)} {a46 : Option (Option String)} {a47 : Option
    (Option Value)} {a48 : Option (Bool)} {a49 : Option (Bool)} {a50 :
    Option (Bool)} {a51 : Option (List Value)} {a52 : Option (Option
    Discriminator)} {a53 : Option (Option Xml)} {a54 : Option (Option
    ExternalDocument)} {a55 : Option (Option Value)} {v16 : Value} {v17 :
    Value} {v18 : Value} {v19 : Value} {v20 : Value} {v21 : Value} {v22 :
    Value} {v23 : Value} {r16 : List (String × Schema)} {r17 : Option
    Schema} {r18 : Option Schema} {r19 : Option Schema} {r20 : Option
    Schema} {r21 : List SchemaType} {r22 : List String} {r23 : Option
    String}
    (h16 : decodeSchemaPairsVal dec v16 = .ok r16)
    (h17 : decodeOptSchema dec v17 = .ok r17)
    (h18 : decodeOptSchema dec v18 = .ok r18)
    (h19 : decodeOptSchema dec v19 = .ok r19)
    (h20 : decodeOptSchema dec v20 = .ok r20)
    (h21 : decodeTypes v21 = .ok r21)
    (h22 : decStrList v22 = .ok r22)
    (h23 : decOptStr v23 = .ok r23) :
    schemaLoop dec ⟨a0, a1, a2, a3, a4, a5, a6, a7, a8, a9, a10, a11, a12,
          a13, a14, a15, none, none, none, none, none, none, none, none,
          a24, a25, a26, a27, a28, a29, a30, a31, a32, a33, a34, a35, a36,
          a37, a38, a39, a40, a41, a42, a43, a44, a45, a46, a47, a48, a49,
          a50, a51, a52, a53, a54, a55⟩ ext
        (("patternProperties", v16) :: ("additionalProperties", v17) ::
          ("propertyNames", v18) :: ("unevaluatedItems", v19) ::
          ("unevaluatedProperties", v20) :: ("type", v21) :: ("enum", v22)
          :: ("const", v23) :: rest)
      = schemaLoop dec ⟨a0, a1, a2, a3, a4, a5, a6, a7, a8, a9, a10, a11,
          a12, a13, a14, a15, some r16, some r17, some r18, some r19, some
          r20, some r21, some r22, some r23, a24, a25, a26, a27, a28, a29,
          a30, a31, a32, a33, a34, a35, a36, a37, a38, a39, a40, a41, a42,
          a43, a44, a45, a46, a47, a48, a49, a50, a51, a52, a53, a54, a55⟩
          ext rest := by
  simp only [schemaLoop, recognizedSchemaKey_k16, recognizedSchemaKey_k17,
    recognizedSchemaKey_k18, recognizedSchemaKey_k19,
    recognizedSchemaKey_k20, recognizedSchemaKey_k21,
    recognizedSchemaKey_k22, recognizedSchemaKey_k23, schemaKnownStep_k16,
    schemaKnownStep_k17, schemaKnownStep_k18, schemaKnownStep_k19,
    schemaKnownStep_k20, schemaKnownStep_k21, schemaKnownStep_k22,
    schemaKnownStep_k23, h16, h17, h18, h19, h20, h21, h22, h23,
    except_map_ok', eq_self_iff_true, if_true]

theorem schemaLoopChunk3 (dec : Value → Except String Schema)
    {ext rest : List (String × Value)}
    {a0 : Option (Option String)} {a1 : Option (Option String)} {a2 :
    Option (Option String)} {a3 : Option (Option String)} {a4 : Option
    (Option (List Schema))} {a5 : Option (Option (List Schema))} {a6 :
    Option (Option (List Schema))} {a7 : Option (Option Schema)} {a8 :
    Option (Option Schema)} {a9 : Option (Option Schema)} {a10 : Option
    (Option Schema)} {a11 : Option (List (String × Schema))} {a12 : Option
    (List Schema)} {a13 : Option (Option Schema)} {a14 : Option (Option
    Schema)} {a15 : Option (Option (List (String × Schema)))} {a16 :
    Option (List (String × Schema))} {a17 : Option (Option Schema)} {a18 :
    Option (Option Schema)} {a19 : Option (Option Schema)} {a20 : Option
    (Option Schema)} {a21 : Option (List SchemaType)} {a22 : Option (List
    String)} {a23 : Option (Option String)} {a32 : Option (Option Nat)}
    {a33 : Option (Option Nat)} {a34 : Option (Bool)} {a35 : Option
    (Option Nat)} {a36 : Option (Option Nat)} {a37 : Option (Option Nat)}
    {a38 : Option (Option Nat)} {a39 : Option (List String)} {a40 : Option
    (List (String × List String))} {a41 : Option (Option FormatOrString)}
    {a42 : Option (Option String)} {a43 : Option (Option String)} {a44 :
    Option (Option Schema)} {a45 : Option (Option String)} {a46 : Option
    (Option String)} {a47 : Option (Option Value)} {a48 : Option (Bool)}
    {a49 : Option (Bool)} {a50 : Option (Bool)} {a51 : Option (List
    Value)} {a52 : Option (Option Discriminator)} {a53 : Option (Option
    Xml)} {a54 : Option (Option ExternalDocument)} {a55 : Option (Option
    Value)} {v24 : Value} {v25 : Value} {v26 : Value} {v27 : Value} {v28 :
    Value} {v29 : Value} {v30 : Value} {v31 : Value} {r24 : Option Int}
    {r25 : Option Int} {r26 : Option Int} {r27 : Option Int} {r28 : Option
    Int} {r29 : Option Nat} {r30 : Option Nat} {r31 : Option String}
    (h24 : decOptNum v24 = .ok r24)
    (h25 : decOptNum v25 = .ok r25)
    (h26 : decOptNum v26 = .ok r26)
    (h27 : decOptNum v27 = .ok r27)
    (h28 : decOptNum v28 = .ok r28)
    (h29 : decOptNat v29 = .ok r29)
    (h30 : decOptNat v30 = .ok r30)
    (h31 : decOptStr v31 = .ok r31) :
    schemaLoop dec ⟨a0, a1, a2, a3, a4, a5, a6, a7, a8, a9, a10, a11, a12,
          a13, a14, a15, a16, a17, a18, a19, a20, a21, a22, a23, none, none,
          none, none, none, none, none, none, a32, a33, a34, a35, a36, a37,
          a38, a39, a40, a41, a42, a43, a44, a45, a46, a47, a48, a49, a50,
          a51, a52, a53, a54, a55⟩ ext
        (("multipleOf", v24) :: ("maximum", v25) :: ("exclusiveMaximum",
          v26) :: ("minimum", v27) :: ("exclusiveMinimum", v28) ::
          ("maxLength", v29) :: ("minLength", v30) :: ("pattern", v31) ::
          rest)
      = schemaLoop dec ⟨a0, a1, a2, a3, a4, a5, a6, a7, a8, a9, a10, a11,
          a12, a13, a14, a15, a16, a17, a18, a19, a20, a21, a22, a23, some
          r24, some r25, some r26, some r27, some r28, some r29, some r30,
          some r31, a32, a33, a34, a35, a36, a37, a38, a39, a40, a41, a42,
          a43, a44, a45, a46, a47, a48, a49, a50, a51, a52, a53, a54, a55⟩
          ext rest := by
  simp only [schemaLoop, recognizedSchemaKey_k24, recognizedSchemaKey_k25,
    recognizedSchemaKey_k26, recognizedSchemaKey_k27,
    recognizedSchemaKey_k28, recognizedSchemaKey_k29,
    recognizedSchemaKey_k30, recognizedSchemaKey_k31, schemaKnownStep_k24,
    schemaKnownStep_k25, schemaKnownStep_k26, schemaKnownStep_k27,
    schemaKnownStep_k28, schemaKnownStep_k29, schemaKnownStep_k30,
    schemaKnownStep_k31, h24, h25, h26, h27, h28, h29, h30, h31,
    except_map_ok', eq_self_iff_true, if_true]

theorem schemaLoopChunk4 (dec : Value → Except String Schema)
    {ext rest : List (String × Value)}
    {a0 : Option (Option String)} {a1 : Option (Option String)} {a2 :
    Option (Option String)} {a3 : Option (Option String)} {a4 : Option
    (Option (List Schema))} {a5 : Option (Option (List Schema))} {a6 :
    Option (Option (List Schema))} {a7 : Option (Option Schema)} {a8 :
    Option (Option Schema)} {a9 : Option (Option Schema)} {a10 : Option
    (Option Schema)} {a11 : Option (List (String × Schema))} {a12 : Option
    (List Schema)} {a13 : Option (Option Schema)} {a14 : Option (Option
    Schema)} {a15 : Option (Option (List (String × Schema)))} {a16 :
    Option (List (String × Schema))} {a17 : Option (Option Schema)} {a18 :
    Option (Option Schema)} {a19 : Option (Option Schema)} {a20 : Option
    (Option Schema)} {a21 : Option (List SchemaType)} {a22 : Option (List
    String)} {a23 : Option (Option String)} {a24 : Option (Option Int)}
    {a25 : Option (Option Int)} {a26 : Option (Option Int)} {a27 : Option
    (Option Int)} {a28 : Option (Option Int)} {a29 : Option (Option Nat)}
    {a30 : Option (Option Nat)} {a31 : Option (Option String)} {a40 :
    Option (List (String × List String))} {a41 : Option (Option
    FormatOrString)} {a42 : Option (Option String)} {a43 : Option (Option
    String)} {a44 : Option (Option Schema)} {a45 : Option (Option String)}
    {a46 : Option (Option String)} {a47 : Option (Option Value)} {a48 :
    Option (Bool)} {a49 : Option (Bool)} {a50 : Option (Bool)} {a51 :
    Option (List Value)} {a52 : Option (Option Discriminator)} {a53 :
    Option (Option Xml)} {a54 : Option (Option ExternalDocument)} {a55 :
    Option (Option Value)} {v32 : Value} {v33 : Value} {v34 : Value} {v35
    : Value} {v36 : Value} {v37 : Value} {v38 : Value} {v39 : Value} {r32
    : Option Nat} {r33 : Option Nat} {r34 : Bool} {r35 : Option Nat} {r36
    : Option Nat} {r37 : Option Nat} {r38 : Option Nat} {r39 : List
    String}
    (h32 : decOptNat v32 = .ok r32)
    (h33 : decOptNat v33 = .ok r33)
    (h34 : decBool v34 = .ok r34)
    (h35 : decOptNat v35 = .ok r35)
    (h36 : decOptNat v36 = .ok r36)
    (h37 : decOptNat v37 = .ok r37)
    (h38 : decOptNat v38 = .ok r38)
    (h39 : decStrList v39 = .ok r39) :
    schemaLoop dec ⟨a0, a1, a2, a3, a4, a5, a6, a7, a8, a9, a10, a11, a12,
          a13, a14, a15, a16, a17, a18, a19, a20, a21, a22, a23, a24, a25,
          a26, a27, a28, a29, a30, a31, none, none, none, none, none, none,
          none, none, a40, a41, a42, a43, a44, a45, a46, a47, a48, a49, a50,
          a51, a52, a53, a54, a55⟩ ext
        (("maxItems", v32) :: ("minItems", v33) :: ("uniqueTtems", v34) ::
          ("maxContains", v35) :: ("minContains", v36) :: ("maxProperties",
          v37) :: ("minProperties", v38) :: ("required", v39) :: rest)
      = schemaLoop dec ⟨a0, a1, a2, a3, a4, a5, a6, a7, a8, a9, a10, a11,
          a12, a13, a14, a15, a16, a17, a18, a19, a20, a21, a22, a23, a24,
          a25, a26, a27, a28, a29, a30, a31, some r32, some r33, some r34,
          some r35, some r36, some r37, some r38, some r39, a40, a41, a42,
          a43, a44, a45, a46, a47, a48, a49, a50, a51, a52, a53, a54, a55⟩
          ext rest := by
  simp only [schemaLoop, recognizedSchemaKey_k32, recognizedSchemaKey_k33,
    recognizedSchemaKey_k34, recognizedSchemaKey_k35,
    recognizedSchemaKey_k36, recognizedSchemaKey_k37,
    recognizedSchemaKey_k38, recognizedSchemaKey_k39, schemaKnownStep_k32,
    schemaKnownStep_k33, schemaKnownStep_k34, schemaKnownStep_k35,
    schemaKnownStep_k36, schemaKnownStep_k37, schemaKnownStep_k38,
    schemaKnownStep_k39, h32, h33, h34, h35, h36, h37, h38, h39,
    except_map_ok', eq_self_iff_true, if_true]

theorem schemaLoopChunk5 (dec : Value → Except String Schema)
    {ext rest : List (String × Value)}
    {a0 : Option (Option String)} {a1 : Option (Option String)} {a2 :
    Option (Option String)} {a3 : Option (Option String)} {a4 : Option
    (Option (List Schema))} {a5 : Option (Option (List Schema))} {a6 :
    Option (Option (List Schema))} {a7 : Option (Option Schema)} {a8 :
    Option (Option Schema)} {a9 : Option (Option Schema)} {a10 : Option
    (Option Schema)} {a11 : Option (List (String × Schema))} {a12 : Option
    (List Schema)} {a13 : Option (Option Schema)} {a14 : Option (Option
    Schema)} {a15 : Option (Option (List (String × Schema)))} {a16 :
    Option (List (String × Schema))} {a17 : Option (Option Schema)} {a18 :
    Option (Option Schema)} {a19 : Option (Option Schema)} {a20 : Option
    (Option Schema)} {a21 : Option (List SchemaType)} {a22 : Option (List
    String)} {a23 : Option (Option String)} {a24 : Option (Option Int)}
    {a25 : Option (Option Int)} {a26 : Option (Option Int)} {a27 : Option
    (Option Int)} {a28 : Option (Option Int)} {a29 : Option (Option Nat)}
    {a30 : Option (Option Nat)} {a31 : Option (Option String)} {a32 :
    Option (Option Nat)} {a33 : Option (Option Nat)} {a34 : Option (Bool)}
    {a35 : Option (Option Nat)} {a36 : Option (Option Nat)} {a37 : Option
    (Option Nat)} {a38 : Option (Option Nat)} {a39 : Option (List String)}
    {a48 : Option (Bool)} {a49 : Option (Bool)} {a50 : Option (Bool)} {a51
    : Option (List Value)} {a52 : Option (Option Discriminator)} {a53 :
    Option (Option Xml)} {a54 : Option (Option ExternalDocument)} {a55 :
    Option (Option Value)} {v40 : Value} {v41 : Value} {v42 : Value} {v43
    : Value} {v44 : Value} {v45 : Value} {v46 : Value} {v47 : Value} {r40
    : List (String × List String)} {r41 : Option FormatOrString} {r42 :
    Option String} {r43 : Option String} {r44 : Option Schema} {r45 :
    Option String} {r46 : Option String} {r47 : Option Value}
    (h40 : decStrListMap v40 = .ok r40)
    (h41 : decOpt decodeFormatOrString v41 = .ok r41)
    (h42 : decOptStr v42 = .ok r42)
    (h43 : decOptStr v43 = .ok r43)
    (h44 : decodeOptSchema dec v44 = .ok r44)
    (h45 : decOptStr v45 = .ok r45)
    (h46 : decOptStr v46 = .ok r46)
    (h47 : decOptAny v47 = .ok r47) :
    schemaLoop dec ⟨a0, a1, a2, a3, a4, a5, a6, a7, a8, a9, a10, a11, a12,
          a13, a14, a15, a16, a17, a18, a19, a20, a21, a22, a23, a24, a25,
          a26, a27, a28, a29, a30, a31, a32, a33, a34, a35, a36, a37, a38,
          a39, none, none, none, none, none, none, none, none, a48, a49,
          a50, a51, a52, a53, a54, a55⟩ ext
        (("dependentRequired", v40) :: ("format", v41) ::
          ("contentEncoding", v42) :: ("contentMediaType", v43) ::
          ("contentSchema", v44) :: ("title", v45) :: ("description", v46)
          :: ("default", v47) :: rest)
      = schemaLoop dec ⟨a0, a1, a2, a3, a4, a5, a6, a7, a8, a9, a10, a11,
          a12, a13, a14, a15, a16, a17, a18, a19, a20, a21, a22, a23, a24,
          a25, a26, a27, a28, a29, a30, a31, a32, a33, a34, a35, a36, a37,
          a38, a39, some r40, some r41, some r42, some r43, some r44, some
          r45, some r46, some r47, a48, a49, a50, a51, a52, a53, a54, a55⟩
          ext rest := by
  simp only [schemaLoop, recognizedSchemaKey_k40, recognizedSchemaKey_k41,
    recognizedSchemaKey_k42, recognizedSchemaKey_k43,
    recognizedSchemaKey_k44, recognizedSchemaKey_k45,
    recognizedSchemaKey_k46, recognizedSchemaKey_k47, schemaKnownStep_k40,
    schemaKnownStep_k41, schemaKnownStep_k42, schemaKnownStep_k43,
    schemaKnownStep_k44, schemaKnownStep_k45, schemaKnownStep_k46,
    schemaKnownStep_k47, h40, h41, h42, h43, h44, h45, h46, h47,
    except_map_ok', eq_self_iff_true, if_true]

theorem schemaLoopChunk6 (dec : Value → Except String Schema)
    {ext rest : List (String × Value)}
    {a0 : Option (Option String)} {a1 : Option (Option String)} {a2 :
    Option (Option String)} {a3 : Option (Option String)} {a4 : Option
    (Option (List Schema))} {a5 : Option (Option (List Schema))} {a6 :
    Option (Option (List Schema))} {a7 : Option (Option Schema)} {a8 :
    Option (Option Schema)} {a9 : Option (Option Schema)} {a10 : Option
    (Option Schema)} {a11 : Option (List (String × Schema))} {a12 : Option
    (List Schema)} {a13 : Option (Option Schema)} {a14 : Option (Option
    Schema)} {a15 : Option (Option (List (String × Schema)))} {a16 :
    Option (List (String × Schema))} {a17 : Option (Option Schema)} {a18 :
    Option (Option Schema)} {a19 : Option (Option Schema)} {a20 : Option
    (Option Schema)} {a21 : Option (List SchemaType)} {a22 : Option (List
    String)} {a23 : Option (Option String)} {a24 : Option (Option Int)}
    {a25 : Option (Option Int)} {a26 : Option (Option Int)} {a27 : Option
    (Option Int)} {a28 : Option (Option Int)} {a29 : Option (Option Nat)}
    {a30 : Option (Option Nat)} {a31 : Option (Option String)} {a32 :
    Option (Option Nat)} {a33 : Option (Option Nat)} {a34 : Option (Bool)}
    {a35 : Option (Option Nat)} {a36 : Option (Option Nat)} {a37 : Option
    (Option Nat)} {a38 : Option (Option Nat)} {a39 : Option (List String)}
    {a40 : Option (List (String × List String))} {a41 : Option (Option
    FormatOrString)} {a42 : Option (Option String)} {a43 : Option (Option
    String)} {a44 : Option (Option Schema)} {a45 : Option (Option String)}
    {a46 : Option (Option String)} {a47 : Option (Option Value)} {v48 :
    Value} {v49 : Value} {v50 : Value} {v51 : Value} {v52 : Value} {v53 :
    Value} {v54 : Value} {v55 : Value} {r48 : Bool} {r49 : Bool} {r50 :
    Bool} {r51 : List Value} {r52 : Option Discriminator} {r53 : Option
    Xml} {r54 : Option ExternalDocument} {r55 : Option Value}
    (h48 : decBool v48 = .ok r48)
    (h49 : decBool v49 = .ok r49)
    (h50 : decBool v50 = .ok r50)
    (h51 : decAnyList v51 = .ok r51)
    (h52 : decOpt decodeDiscriminator v52 = .ok r52)
    (h53 : decOpt decodeXml v53 = .ok r53)
    (h54 : decOpt decodeExternalDocument v54 = .ok r54)
    (h55 : decOptAny v55 = .ok r55) :
    schemaLoop dec ⟨a0, a1, a2, a3, a4, a5, a6, a7, a8, a9, a10, a11, a12,
          a13, a14, a15, a16, a17, a18, a19, a20, a21, a22, a23, a24, a25,
          a26, a27, a28, a29, a30, a31, a32, a33, a34, a35, a36, a37, a38,
          a39, a40, a41, a42, a43, a44, a45, a46, a47, none, none, none,
          none, none, none, none, none⟩ ext
        (("deprecated", v48) :: ("readOnly", v49) :: ("writeOnly", v50) ::
          ("examples", v51) :: ("discriminator", v52) :: ("xml", v53) ::
          ("externalDocs", v54) :: ("example", v55) :: rest)
      = schemaLoop dec ⟨a0, a1, a2, a3, a4, a5, a6, a7, a8, a9, a10, a11,
          a12, a13, a14, a15, a16, a17, a18, a19, a20, a21, a22, a23, a24,
          a25, a26, a27, a28, a29, a30, a31, a32, a33, a34, a35, a36, a37,
          a38, a39, a40, a41, a42, a43, a44, a45, a46, a47, some r48, some
          r49, some r50, some r51, some r52, some r53, some r54, some r55⟩
          ext rest := by
  simp only [schemaLoop, recognizedSchemaKey_k48, recognizedSchemaKey_k49,
    recognizedSchemaKey_k50, recognizedSchemaKey_k51,
    recognizedSchemaKey_k52, recognizedSchemaKey_k53,
    recognizedSchemaKey_k54, recognizedSchemaKey_k55, schemaKnownStep_k48,
    schemaKnownStep_k49, schemaKnownStep_k50, schemaKnownStep_k51,
    schemaKnownStep_k52, schemaKnownStep_k53, schemaKnownStep_k54,
    schemaKnownStep_k55, h48, h49, h50, h51, h52, h53, h54, h55,
    except_map_ok', eq_self_iff_true, if_true]

set_option maxHeartbeats 4000000 in
/-- One decode-after-encode layer of `Schema`: with a sound child codec
whose encodings are never `null`, a layer-wise well-formed schema's
encoded field list decodes back to the schema itself. -/
theorem decodeSchemaFields_encodeSchemaFields
    {dec : Value → Except String Schema} {enc : Schema → Value}
    {wf : Schema → Bool}
    (hsound : ∀ c, wf c = true → dec (enc c) = .ok c)
    (hnn : ∀ c, wf c = true → enc c ≠ .null)
    (s : Schema) (hs : schemaWFStep wf s = true) :
    decodeSchemaFields dec (encodeSchemaFields enc s) = .ok s := by
  obtain ⟨x0, x1, x2, x3, x4, x5, x6, x7, x8, x9, x10, x11, x12, x13, x14,
    x15, x16, x17, x18, x19, x20, x21, x22, x23, x24, x25, x26, x27, x28,
    x29, x30, x31, x32, x33, x34, x35, x36, x37, x38, x39, x40, x41, x42,
    x43, x44, x45, x46, x47, x48, x49, x50, x51, x52, x53, x54, x55,
    ext⟩ := s
  simp only [schemaWFStep, Bool.and_eq_true] at hs
  obtain ⟨hext, hfmt, hdef, hexv, hao, hany, hone, hnot, hif, hthen, helse,
    hdep, hpre, hitems, hcont, hprops, hpat, haddp, hpnames, hunevi, hunevp,
    hcs⟩ := hs
  have hx4 := decodeOptSchemaList_roundtrip hsound x4 hao
  have hx5 := decodeOptSchemaList_roundtrip hsound x5 hany
  have hx6 := decodeOptSchemaList_roundtrip hsound x6 hone
  have hx7 := decodeOptSchema_roundtrip hsound hnn x7 hnot
  have hx8 := decodeOptSchema_roundtrip hsound hnn x8 hif
  have hx9 := decodeOptSchema_roundtrip hsound hnn x9 hthen
  have hx10 := decodeOptSchema_roundtrip hsound hnn x10 helse
  have hx11 := decodeSchemaPairsVal_roundtrip hsound x11 hdep
  have hx12 := decodeSchemaArrVal_roundtrip hsound x12 hpre
  have hx13 := decodeOptSchema_roundtrip hsound hnn x13 hitems
  have hx14 := decodeOptSchema_roundtrip hsound hnn x14 hcont
  have hx15 := decodeOptSchemaPairs_roundtrip hsound x15 hprops
  have hx16 := decodeSchemaPairsVal_roundtrip hsound x16 hpat
  have hx17 := decodeOptSchema_roundtrip hsound hnn x17 haddp
  have hx18 := decodeOptSchema_roundtrip hsound hnn x18 hpnames
  have hx19 := decodeOptSchema_roundtrip hsound hnn x19 hunevi
  have hx20 := decodeOptSchema_roundtrip hsound hnn x20 hunevp
  have hx44 := decodeOptSchema_roundtrip hsound hnn x44 hcs
  have hx41 : decOpt decodeFormatOrString (encOpt encodeFormatOrString x41)
      = .ok x41 := by
    cases x41 with
    | none => rfl
    | some fo =>
        have hd := decodeFormatOrString_enc fo
          (by cases fo with | format g => rfl | other s => exact hfmt)
        simp only [encOpt]
        cases henc : encodeFormatOrString fo <;> rw [henc] at hd <;>
          first
          | exact absurd henc (encodeFormatOrString_ne_null fo)
          | simp [decOpt, hd]
  have hx47 : decOptAny (encOptAny x47) = .ok x47 :=
    decOptAny_encOptAny x47 (by
      intro hc; rw [hc] at hdef; exact Bool.noConfusion hdef)
  have hx55 : decOptAny (encOptAny x55) = .ok x55 :=
    decOptAny_encOptAny x55 (by
      intro hc; rw [hc] at hexv; exact Bool.noConfusion hexv)
  have hx52 := decOpt_encOpt decodeDiscriminator encodeDiscriminator
    (fun d => decodeDiscriminator_enc d) encodeDiscriminator_ne_null x52
  have hx53 := decOpt_encOpt decodeXml encodeXml
    (fun x => decodeXml_enc x) encodeXml_ne_null x53
  have hx54d := decOpt_encOpt decodeExternalDocument encodeExternalDocument
    (fun e => decodeExternalDocument_enc e) encodeExternalDocument_ne_null x54
  simp only [encodeSchemaFields, decodeSchemaFields]
  rw [schemaLoop_append]
  simp only [SchemaAcc.init]
  rw [schemaLoopChunk0 dec (decOptStr_encOptStr x0) (decOptStr_encOptStr x1)
    (decOptStr_encOptStr x2) (decOptStr_encOptStr x3) hx4 hx5 hx6 hx7]
  rw [schemaLoopChunk1 dec hx8 hx9 hx10 hx11 hx12 hx13 hx14 hx15]
  rw [schemaLoopChunk2 dec hx16 hx17 hx18 hx19 hx20
    (decodeTypes_encodeTypes x21) (decStrList_encStrList x22)
    (decOptStr_encOptStr x23)]
  rw [schemaLoopChunk3 dec (decOptNum_encOptNum x24) (decOptNum_encOptNum x25)
    (decOptNum_encOptNum x26) (decOptNum_encOptNum x27)
    (decOptNum_encOptNum x28) (decOptNat_encOptNat x29)
    (decOptNat_encOptNat x30) (decOptStr_encOptStr x31)]
  rw [schemaLoopChunk4 dec (decOptNat_encOptNat x32) (decOptNat_encOptNat x33)
    (decBool_bool x34) (decOptNat_encOptNat x35) (decOptNat_encOptNat x36)
    (decOptNat_encOptNat x37) (decOptNat_encOptNat x38)
    (decStrList_encStrList x39)]
  rw [schemaLoopChunk5 dec (decStrListMap_encStrListMap x40) hx41
    (decOptStr_encOptStr x42) (decOptStr_encOptStr x43) hx44
    (decOptStr_encOptStr x45) (decOptStr_encOptStr x46) hx47]
  rw [schemaLoopChunk6 dec (decBool_bool x48) (decBool_bool x49)
    (decBool_bool x50) (decAnyList_arr x51) hx52 hx53 hx54d hx55]
  simp only [schemaLoop]
  rw [schemaLoop_unknown dec _ [] ext hext]
  simp [schemaFinish]

/-- The round-trip of claim C4 (amended): decode after encode is the
identity on well-formed schemas, at any sufficient depth budget. -/
theorem decodeSchemaVal_encodeSchemaVal :
    ∀ (fuel : Nat) (s : Schema), schemaWF fuel s = true →
      decodeSchemaVal fuel (encodeSchemaVal fuel s) = .ok s := by
  intro fuel
  induction fuel with
  | zero => intro s h; simp [schemaWF] at h
  | succ fuel ih =>
      intro s h
      simp only [schemaWF] at h
      simp only [encodeSchemaVal, decodeSchemaVal]
      exact decodeSchemaFields_encodeSchemaFields ih
        (fun c hc => encodeSchemaVal_ne_null fuel c hc) s h

/-- Unfolding `decodeReference` under a successful visitor loop. -/
theorem decodeReference_ok_loop {T : Type}
    (decT : List (String × Value) → Except String T)
    (kvs : List (String × Value)) (acc : RefAcc)
    (hloop : refLoop ⟨none, none, none, []⟩ kvs = .ok acc) :
    decodeReference decT (.obj kvs)
      = if acc.buffer.isEmpty then
          .ok ⟨acc.ref.getD none, acc.summary.getD none,
            acc.description.getD none, none⟩
        else
          match decT acc.buffer with
          | .error e => .error e
          | .ok t =>
              .ok ⟨acc.ref.getD none, acc.summary.getD none,
                acc.description.getD none, some t⟩ := by
  simp only [decodeReference, hloop]

/-- Unfolding `decodeReference` under a failing visitor loop. -/
theorem decodeReference_error_loop {T : Type}
    (decT : List (String × Value) → Except String T)
    (kvs : List (String × Value)) (e : String)
    (hloop : refLoop ⟨none, none, none, []⟩ kvs = .error e) :
    decodeReference decT (.obj kvs) = .error e := by
  simp only [decodeReference, hloop]

/-! # Theorems settling the claims -/

/-- C1 (code bug): at the Scenario B input (contact name `"Ana"`, email
`"a@x.com"`, no url), the synthesized header's contact line is
`"Contact: Ana <a@x.com>, a@x.com"`, not the claimed
`"Contact: Ana <a@x.com>"` — the second email block of
`write_module_docs` re-appends the email where the function's own doc
template says `contact.url` — and at the Scenario C input (email alone)
the line is `"a@x.com, a@x.com"`, with no `"Contact: "` prefix, instead
of the claimed `"Contact: a@x.com"`. -/
theorem c1_contact_line_duplicates_email :
    moduleDocs specScenarioB
      = "Pet Store\n\nVersion: 1.0.0\nContact: Ana <a@x.com>, a@x.com"
    ∧ moduleDocs specScenarioC
      = "Pet Store\n\nVersion: 1.0.0\na@x.com, a@x.com" :=
  ⟨rfl, rfl⟩

/-- C2 counterexample: with `T = Response` (whose `description` field has
no default, so the empty field set does not decode as `T`), the empty
raw object — no `$ref` marker, not decodable as `T`, hence structurally
matching neither variant — still decodes successfully, to a `Reference`
with no uri and no embedded object. -/
theorem c2_counterexample_empty_object_decodes :
    decodeReference (decodeResponse decStuck decStuck decStuck) (.obj [])
      = .ok ⟨none, none, none, none⟩
    ∧ (decodeResponse decStuck decStuck decStuck
        ([] : List (String × Value))).isOk = false :=
  ⟨rfl, rfl⟩

/-- C2 amended: decoding `Reference<T>` fails when the marker is absent
and at least one entry beyond the `Reference`'s own three named fields
remains and those remaining entries fail to decode as `T`; when no such
entry remains, the flattened object decodes to `None` whatever `T` is —
in particular the empty raw object, which may match neither variant,
decodes successfully to a value in neither variant. -/
theorem c2_reference_decode_error_conditions :
    ∀ (T : Type) (decT : List (String × Value) → Except String T)
      (kvs : List (String × Value)),
      (refLeftover kvs ≠ [] → (decT (refLeftover kvs)).isOk = false →
        (decodeReference decT (.obj kvs)).isOk = false)
      ∧ (∀ r : Reference T, refLeftover kvs = [] →
          decodeReference decT (.obj kvs) = .ok r → r.object = none)
      ∧ decodeReference decT (.obj ([] : List (String × Value)))
          = .ok ⟨none, none, none, none⟩ := by
  intro T decT kvs
  refine ⟨?_, ?_, rfl⟩
  · intro hne hfail
    cases hloop : refLoop ⟨none, none, none, []⟩ kvs with
    | error e => rw [decodeReference_error_loop decT kvs e hloop]; rfl
    | ok acc =>
        have hbuf : acc.buffer = refLeftover kvs := by
          simpa using refLoop_buffer kvs _ acc hloop
        rw [decodeReference_ok_loop decT kvs acc hloop, hbuf]
        have : (refLeftover kvs).isEmpty = false := by
          cases hc : refLeftover kvs with
          | nil => exact absurd hc hne
          | cons a l => rfl
        rw [this]
        simp only [Bool.false_eq_true, if_false]
        cases hd : decT (refLeftover kvs) with
        | error e => rfl
        | ok t => rw [hd] at hfail; cases hfail
  · intro r hemp hok
    cases hloop : refLoop ⟨none, none, none, []⟩ kvs with
    | error e =>
        rw [decodeReference_error_loop decT kvs e hloop] at hok; cases hok
    | ok acc =>
        have hbuf : acc.buffer = refLeftover kvs := by
          simpa using refLoop_buffer kvs _ acc hloop
        rw [decodeReference_ok_loop decT kvs acc hloop, hbuf, hemp] at hok
        simp only [List.isEmpty_nil, if_true] at hok
        cases hok
        rfl

/-- Witness for `c2_reference_decode_error_conditions`: at the raw object
`{"x": null}` with `T = Response`, the leftover entry set is non-empty
and fails to decode as a `Response` (its required `description` is
missing), and decoding the `Reference` indeed fails. -/
theorem c2_reference_decode_error_conditions_witness :
    (decodeReference (decodeResponse decStuck decStuck decStuck)
      (.obj [("x", .null)])).isOk = false :=
  (c2_reference_decode_error_conditions _
      (decodeResponse decStuck decStuck decStuck)
      [("x", .null)]).1 (fun h => List.noConfusion h) (by rfl)

/-- C3 (code bug): the encoding of the inline reference
`Reference<Example>` holding the all-default `Example` flattens the
`Example`'s `summary`/`description` fields into the same object as the
`Reference`'s own `summary`/`description` (serialized as `null`),
yielding duplicate keys; decoding that very output fails with a
duplicate-field error instead of returning the same Inline value.
(Every component type the crate wraps in `Reference<T>` except
`Callback` has such an overlapping field.)  The last conjunct shows the
marker does not select a variant either: a `$ref` marker together with
leftover fields decodes with both the pointer and the embedded object
populated. -/
theorem c3_reference_roundtrip_fails_on_inline_example :
    encodeReference encodeExample
        ⟨none, none, none, some ⟨none, none, none, ""⟩⟩
      = .obj [("$ref", .null), ("summary", .null), ("description", .null),
          ("summary", .null), ("description", .null), ("value", .null),
          ("externalValue", .str "")]
    ∧ (decodeReference decodeExample
        (encodeReference encodeExample
          ⟨none, none, none, some ⟨none, none, none, ""⟩⟩)).isOk = false
    ∧ decodeReference decodeExample
        (.obj [("$ref", .str "u"), ("value", .null)])
        = .ok ⟨some "u", none, none, some ⟨none, none, none, ""⟩⟩ :=
  ⟨rfl, rfl, rfl⟩

/-- C5: within one `write_to` pass each of the three warnings appears iff
its condition holds (`jsonSchemaDialect` set, `webhooks` non-empty, root
`security` non-empty), the checks are independent (the iffs hold for
every spec), and the produced list is always ordered as dialect,
webhooks, security (it is a sublist of the three messages in that fixed
order); the Scenario D input yields exactly the webhooks and security
warnings, in that order. -/
theorem c5_write_to_warnings :
    (∀ spec : Spec,
      (writeToWarnings spec).Sublist
          ["$root.jsonSchemaDialect not supported",
           "$root.webhooks not supported",
           "$root.security not supported"]
      ∧ ("$root.jsonSchemaDialect not supported" ∈ writeToWarnings spec
            ↔ spec.json_schema_dialect.isSome = true)
      ∧ ("$root.webhooks not supported" ∈ writeToWarnings spec
            ↔ spec.webhooks ≠ [])
      ∧ ("$root.security not supported" ∈ writeToWarnings spec
            ↔ spec.security ≠ []))
    ∧ writeToWarnings specScenarioD
        = ["$root.webhooks not supported", "$root.security not supported"] := by
  refine ⟨fun spec => ?_, rfl⟩
  obtain ⟨i, jd, wh, sec, ed⟩ := spec
  rcases jd with _ | v <;> rcases wh with _ | ⟨w, ws⟩ <;>
    rcases sec with _ | ⟨s, ss⟩ <;>
      refine ⟨?_, ?_, ?_, ?_⟩ <;> simp [writeToWarnings]

/-- C6: the paragraph following the title in the synthesized header is
the description when present, else the summary when present, else
absent, with a period appended exactly when the chosen text does not
already end in one: the source-derived `descriptionBlock` coincides with
the claim-side rendering `c6Paragraph`, and the Scenario A input renders
exactly `"Pet Store\n\nSells pets.\n\nVersion: 1.0.0"`. -/
theorem c6_description_paragraph :
    (∀ info : Info,
      descriptionBlock info = c6Paragraph info.description info.summary)
    ∧ moduleDocs specScenarioA
        = "Pet Store\n\nSells pets.\n\nVersion: 1.0.0" := by
  refine ⟨fun info => ?_, rfl⟩
  obtain ⟨t, su, d, tos, c, l, v⟩ := info
  rcases d with _ | d <;> rcases su with _ | s <;>
    simp [descriptionBlock, c6Paragraph, Option.or]

/-- C7 counterexample: with no description on the external document, the
header renders `"More documentation at: <https://e.example>."` — the url
is enclosed in angle brackets, so the line is not the claimed
`"More documentation at: https://e.example."`. -/
theorem c7_counterexample_angle_brackets :
    moduleDocs specExtDocs
      = "T\n\nMore documentation at: <https://e.example>.\n\nVersion: 1"
    ∧ moduleDocs specExtDocs
      ≠ "T\n\n" ++ c7StatedLine ⟨none, "https://e.example"⟩
          ++ "\n\nVersion: 1" :=
  ⟨rfl, by decide⟩

/-- C7 amended: when the spec has an external document, the header
contains the line `<description-with-one-trailing-period-stripped, or
"More documentation at">: <url>.` — with the url in angle brackets — and
that line always ends in `">."`, never in a doubled period. -/
theorem c7_external_docs_line :
    (∀ (i : Info) (jd : Option String) (wh : List String)
        (sec : List (List (String × List String))) (ed : ExternalDocument),
      moduleDocs ⟨i, jd, wh, sec, some ed⟩
        = i.title ++ descriptionBlock i ++ "\n\n" ++ c7AmendedLine ed
            ++ "\n\nVersion: " ++ i.version ++ contactBlock i.contact
            ++ licenseBlock i.license ++ tosBlock i.terms_of_service)
    ∧ (∀ ed : ExternalDocument,
        (c7AmendedLine ed).data.getLast? = some '.'
        ∧ (c7AmendedLine ed).data.dropLast.getLast? = some '>') := by
  constructor
  · intro i jd wh sec ed
    obtain ⟨d, u⟩ := ed
    rcases d with _ | d <;>
      simp only [moduleDocs, externalDocsBlock, c7AmendedLine,
        String.append_assoc]
  · intro ed
    have h1 : ∀ l : List Char, ('<' :: (l ++ ['>', '.'])).getLast? = some '.' := by
      intro l
      rw [show '<' :: (l ++ ['>', '.']) = ('<' :: (l ++ ['>'])) ++ ['.'] by simp,
        List.getLast?_concat]
    have h2 : ∀ l : List Char, ('<' :: (l ++ ['>'])).getLast? = some '>' := by
      intro l
      rw [show '<' :: (l ++ ['>']) = ('<' :: l) ++ ['>'] by simp,
        List.getLast?_concat]
    have h : c7AmendedLine ed
        = ((match ed.description with
            | some d => stripDotSuffix d
            | none => "More documentation at")
            ++ ": <" ++ ed.url ++ ">") ++ "." := by
      simp [c7AmendedLine, String.append_assoc]
    constructor
    · rw [h, data_append]
      simp [h1]
    · rw [h, data_append]
      simp only [List.dropLast_concat]
      rw [data_append]
      simp [h2]

/-- C9: the generator is deterministic and stateless: the rendered module
documentation depends only on the spec, the warnings previously in the
caller's vector are preserved unchanged, and the warnings appended by a
run are the same regardless of what the vector already contained (hence
regardless of prior invocations). -/
theorem c9_deterministic :
    ∀ (spec : Spec) (w₁ w₂ : List String),
      (writeTo spec w₁).1 = (writeTo spec w₂).1
      ∧ (writeTo spec w₁).2.take w₁.length = w₁
      ∧ (writeTo spec w₁).2.drop w₁.length
          = (writeTo spec w₂).2.drop w₂.length := by
  intro spec w₁ w₂
  refine ⟨rfl, ?_, ?_⟩ <;> simp [writeTo, List.take_left, List.drop_left]

/-- C10: `_read_from_file` dispatches on the extension compared
case-sensitively against exactly `"json"` and `"yaml"`; every other
extension (including `"yml"`, `"JSON"` and a missing extension) yields
`InvalidInput`/`"unsupported file format"`, and in that case the result
does not depend on the per-format reader (the file is never opened). -/
theorem c10_extension_dispatch :
    ∀ (α : Type) (run run' : FileFormat → Except (ErrorKind × String) α)
      (ext : Option String),
      readFromFile α ext run
        = (if ext = some "json" then run .json
           else if ext = some "yaml" then run .yaml
           else .error (.invalidInput, "unsupported file format"))
      ∧ readFromFile α (some "yml") run
          = .error (.invalidInput, "unsupported file format")
      ∧ readFromFile α (some "JSON") run
          = .error (.invalidInput, "unsupported file format")
      ∧ readFromFile α none run
          = .error (.invalidInput, "unsupported file format")
      ∧ (ext ≠ some "json" → ext ≠ some "yaml" →
          readFromFile α ext run = readFromFile α ext run') := by
  intro α run run' ext
  have hchar :
      readFromFile α ext run
        = (if ext = some "json" then run .json
           else if ext = some "yaml" then run .yaml
           else .error (.invalidInput, "unsupported file format")) := by
    rcases ext with _ | e
    · rfl
    · by_cases h1 : e = "json"
      · subst h1; rfl
      · by_cases h2 : e = "yaml"
        · subst h2; rfl
        · rw [if_neg (by simp [h1]), if_neg (by simp [h2])]
          unfold readFromFile
          split <;> simp_all
  have hchar' :
      readFromFile α ext run'
        = (if ext = some "json" then run' .json
           else if ext = some "yaml" then run' .yaml
           else .error (.invalidInput, "unsupported file format")) := by
    rcases ext with _ | e
    · rfl
    · by_cases h1 : e = "json"
      · subst h1; rfl
      · by_cases h2 : e = "yaml"
        · subst h2; rfl
        · rw [if_neg (by simp [h1]), if_neg (by simp [h2])]
          unfold readFromFile
          split <;> simp_all
  refine ⟨hchar, rfl, rfl, rfl, fun hj hy => ?_⟩
  rw [hchar, hchar', if_neg hj, if_neg hy, if_neg hj, if_neg hy]

/-- Witness for `c10_extension_dispatch`: at the concrete extension
`"yml"` both side conditions hold, and the dispatch result is the same
for two different reader oracles. -/
theorem c10_extension_dispatch_witness :
    readFromFile Unit (some "yml") (fun _ => .ok ())
      = readFromFile Unit (some "yml")
          (fun _ => .error (.invalidData, "io")) :=
  (c10_extension_dispatch Unit (fun _ => .ok ())
      (fun _ => .error (.invalidData, "io")) (some "yml")).2.2.2.2
    (by decide) (by decide)


/-- C4 counterexample: the unrestricted round-trip claim fails — an
extension entry whose key collides with a declared wire name makes the
encoded object carry that key twice (the declared field is always
emitted, even when absent), and decoding rejects the result as a
duplicate field, preserving neither the type set nor any keyword
child. -/
theorem c4_counterexample_extension_collision :
    (decodeSchemaVal 2 (encodeSchemaVal 2
        (emptySchema.withExtensions [("title", .str "x")]))).isOk = false
    ∧ (decodeSchemaVal 3 (encodeSchemaVal 3
        (sampleSchema.withExtensions [("items", .null)]))).isOk = false :=
  ⟨rfl, rfl⟩

/-- C4 (amended): on round-trip well-formed schemas — extension keys
avoid the 56 declared wire names, `format` is not a free-form string
spelling a recognized tag, the `default`/`example` payloads are not
`Some Null`, recursively in every keyword child, with a sufficient depth
budget — decoding the encoding is the identity, so the semantic `type`
list and every keyword child are preserved exactly; and the
`one_or_array` codec encodes a one-element `type` list as the bare
scalar and every other length as the sequence in declaration order. -/
theorem c4_schema_roundtrip (fuel : Nat) (s : Schema)
    (h : schemaWF fuel s = true) :
    decodeSchemaVal fuel (encodeSchemaVal fuel s) = .ok s
    ∧ (∀ t, encodeTypes [t] = .str (schemaTypeName t))
    ∧ ∀ ts : List SchemaType, ts.length ≠ 1 →
        encodeTypes ts = .arr (ts.map fun t => .str (schemaTypeName t)) := by
  refine ⟨decodeSchemaVal_encodeSchemaVal fuel s h, fun t => rfl,
    fun ts hts => ?_⟩
  match ts with
  | [] => rfl
  | [t] => exact absurd rfl hts
  | t1 :: t2 :: rest => rfl

/-- Witness for `c4_schema_roundtrip`: a concrete well-formed nested
schema (a child in `items`, a title, a vendor extension) round-trips at
depth budget 3, and scenario E's one-element type list encodes to the
bare string. -/
theorem c4_schema_roundtrip_witness :
    schemaWF 3 sampleSchema = true
    ∧ decodeSchemaVal 3 (encodeSchemaVal 3 sampleSchema) = .ok sampleSchema
    ∧ encodeTypes [SchemaType.string] = .str "string"
    ∧ encodeTypes [] = .arr [] :=
  ⟨rfl, (c4_schema_roundtrip 3 sampleSchema rfl).1,
    (c4_schema_roundtrip 3 sampleSchema rfl).2.1 SchemaType.string,
    (c4_schema_roundtrip 3 sampleSchema rfl).2.2 [] (by decide)⟩

/-- C8: decoding a `Schema` never fails merely because the raw object
carries top-level keys outside the recognized keyword set — whenever the
recognized entries alone decode to `s`, the full entry list decodes
successfully to `s` carrying every unrecognized entry, verbatim and in
encounter order, as its extension mapping. -/
theorem c8_unknown_keys_collected (dec : Value → Except String Schema)
    (kvs : List (String × Value)) (s : Schema)
    (h : decodeSchemaFields dec (kvs.filter fun e => recognizedSchemaKey e.1)
        = .ok s) :
    decodeSchemaFields dec kvs
      = .ok (s.withExtensions (kvs.filter fun e => !recognizedSchemaKey e.1))
    ∧ (s.withExtensions
        (kvs.filter fun e => !recognizedSchemaKey e.1)).extensions
      = kvs.filter fun e => !recognizedSchemaKey e.1 := by
  refine ⟨?_, extensions_withExtensions s _⟩
  simp only [decodeSchemaFields] at h ⊢
  rw [schemaLoop_filter dec SchemaAcc.init kvs]
  cases hres : schemaLoop dec SchemaAcc.init []
      (kvs.filter fun e => recognizedSchemaKey e.1) with
  | error e =>
      rw [hres] at h
      exact Except.noConfusion h
  | ok p =>
      obtain ⟨acc, ext0⟩ := p
      rw [hres] at h
      have hs : schemaFinish acc ext0 = s := by injection h
      show Except.ok (schemaFinish acc
          (kvs.filter fun e => !recognizedSchemaKey e.1)) = _
      rw [← hs, schemaFinish_withExtensions]

/-- Witness for `c8_unknown_keys_collected`: a raw object with a vendor
key and a title decodes with the vendor entry collected verbatim. -/
theorem c8_unknown_keys_collected_witness :
    decodeSchemaFields (decodeSchemaVal 1)
        ([("x-vendor", .str "v"), ("title", .str "T")].filter
          fun e => recognizedSchemaKey e.1) = .ok titleSchema
    ∧ decodeSchemaFields (decodeSchemaVal 1)
        [("x-vendor", .str "v"), ("title", .str "T")]
      = .ok (titleSchema.withExtensions
          ([("x-vendor", .str "v"), ("title", .str "T")].filter
            fun e => !recognizedSchemaKey e.1)) :=
  ⟨rfl,
    (c8_unknown_keys_collected (decodeSchemaVal 1)
      [("x-vendor", .str "v"), ("title", .str "T")] titleSchema rfl).1⟩

end Openapi
